import Mathlib

/-!
ARGoS3: the dynamics2d box model and the controller capability registry.

A shallow embedding of

* `plugins/simulator/physics_engines/dynamics2d/dynamics2d_box_model.cpp`
  (`CDynamics2DBoxModel`: constructor, destructor, `CheckIntersectionWithRay`, `MoveTo`,
  `Reset`, `CalculateBoundingBox`, `UpdateEntityStatus`, `IsCollidingWithSomething`), and
* `core/control_interface/ci_controller.h`
  (`CCI_Controller`: `GetActuator`, `GetSensor`, `AddActuator`, `AddSensor`).

Conventions of the embedding.

* `Real` and `cpFloat` values are idealised as rationals (`ℚ`); rounding is not modelled.
* A C++ pointer member is an `Option`: `none` is a pointer that designates no object
  (`NULL`, or never assigned), `some o` is a pointer to the object `o`.  Every object of the
  model is owned by exactly one pointer, so objects are stored by value.
* Dereferencing a pointer that designates no object makes the operation return `none`.
* The physics library and the math classes are not part of the embedded files.  Functions whose
  value cannot be computed over `ℚ` (trigonometry, the spatial queries) are fields of
  `Externals`; the others are small definitions marked as modelled.
-/

namespace Argos

/-! ## Value types -/

/-- Two-dimensional vector of the physics library (`cpVect`). -/
structure cpVect where
  x : ℚ
  y : ℚ
deriving DecidableEq

/-- Axis-aligned rectangle of the physics library (`cpBB`): left, bottom, right, top. -/
structure cpBB where
  l : ℚ
  b : ℚ
  r : ℚ
  t : ℚ
deriving DecidableEq

/-- Three-dimensional vector (`CVector3`). -/
structure CVector3 where
  x : ℚ
  y : ℚ
  z : ℚ
deriving DecidableEq

/-- Quaternion (`CQuaternion`), stored by its four components. -/
structure CQuaternion where
  w : ℚ
  x : ℚ
  y : ℚ
  z : ℚ
deriving DecidableEq

/-- Segment in space (`CRay3`). -/
structure CRay3 where
  m_cStart : CVector3
  m_cEnd : CVector3
deriving DecidableEq

/-- Axis-aligned box in space (`SBoundingBox`). -/
structure SBoundingBox where
  MinCorner : CVector3
  MaxCorner : CVector3
deriving DecidableEq

/-- Collision categories of the engine (`CDynamics2DEngine::EShapeType`). -/
inductive EShapeType where
  | SHAPE_NORMAL
  | SHAPE_GRIPPABLE
  | SHAPE_GRIPPER
deriving DecidableEq

/-- The body a shape is bound to: the model's own dynamic body, or the engine's ground body. -/
inductive ShapeAnchor where
  | modelBody
  | groundBody
deriving DecidableEq

/-- Rigid body of the physics library (`cpBody`), with the fields the model reads or writes. -/
structure cpBody where
  m : ℚ
  i : ℚ
  p : cpVect
  v : cpVect
  f : cpVect
  a : ℚ
  w : ℚ
  t : ℚ
  rot : cpVect
deriving DecidableEq

/-- Polygon shape of the physics library (`cpShape` / `cpPolyShape`). -/
structure cpShape where
  body : ShapeAnchor
  verts : List cpVect
  bb : cpBB
  e : ℚ
  u : ℚ
  collision_type : EShapeType
deriving DecidableEq

/-- The two joints the model creates. -/
inductive JointKind where
  | pivotJoint (anchr1 anchr2 : cpVect)
  | gearJoint (phase ratio : ℚ)
deriving DecidableEq

/-- Constraint of the physics library (`cpConstraint`); `none` stands for an unbounded limit. -/
structure cpConstraint where
  kind : JointKind
  maxForce : Option ℚ
  maxBias : Option ℚ
deriving DecidableEq

/-- Result record of a segment query (`cpSegmentQueryInfo`). -/
structure cpSegmentQueryInfo where
  t : ℚ
deriving DecidableEq

/-- The functions of the physics library and of the math classes that are taken as given. -/
structure Externals where
  /-- The Z angle delivered by `CQuaternion::ToEulerAngles`. -/
  ToEulerAnglesZ : CQuaternion → ℚ
  /-- The quaternion built by `CQuaternion::FromAngleAxis` about the Z axis. -/
  FromAngleAxisZ : ℚ → CQuaternion
  /-- The unit vector of an angle (`cpvforangle`). -/
  cpvforangle : ℚ → cpVect
  /-- Moment of a polygon (`cpMomentForPoly`). -/
  cpMomentForPoly : ℚ → List cpVect → cpVect → ℚ
  /-- Shape-overlap query (`cpSpaceShapeQuery`): the number of shapes of the space that overlap
  the given shape when the body it is bound to has the given position and rotation vector. -/
  cpSpaceShapeQuery : cpShape → cpVect → cpVect → ℕ
  /-- Segment query (`cpShapeSegmentQuery`) for a shape whose body has the given position and
  rotation vector, between two points: the hit flag and the filled result record. -/
  cpShapeSegmentQuery : cpShape → cpVect → cpVect → cpVect → cpVect → Bool × cpSegmentQueryInfo
  /-- The effect of `CBoxEntity::UpdateComponents` on the state of the dependent components. -/
  UpdateComponents : ℕ → ℕ

/-! ## Entities -/

/-- The embodied entity (`CEmbodiedEntity`): current and first placement, and the movable flag. -/
structure CEmbodiedEntity where
  m_cPosition : CVector3
  m_cOrientation : CQuaternion
  m_cInitPosition : CVector3
  m_cInitOrientation : CQuaternion
  m_bMovable : Bool
deriving DecidableEq

/-- The box entity (`CBoxEntity`).  `m_cComponents` is the state of its dependent components. -/
structure CBoxEntity where
  m_cEmbodiedEntity : CEmbodiedEntity
  m_cSize : CVector3
  m_fMass : ℚ
  m_cComponents : ℕ
deriving DecidableEq

/-- Modelled from the spec: the Attachment Controller (`CDynamics2DGrippable`, declared in
`dynamics2d_gripping.h`), which tracks the set of attachers currently attached to the entity.
`releaseAllCalls` is a ghost counter of the `ReleaseAll` invocations the controller has received;
no code reads it. -/
structure CDynamics2DGrippable where
  m_listGrippers : List ℕ
  releaseAllCalls : ℕ
deriving DecidableEq

/-- The box model (`CDynamics2DBoxModel` with the members of its base `CDynamics2DModel`).
The embodied entity of the base class is the one of `m_cBoxEntity`. -/
structure CDynamics2DBoxModel where
  m_cBoxEntity : CBoxEntity
  m_pcGrippable : Option CDynamics2DGrippable
  m_fMass : ℚ
  m_ptShape : Option cpShape
  m_ptBody : Option cpBody
  m_ptLinearFriction : Option cpConstraint
  m_ptAngularFriction : Option cpConstraint
  m_sBoundingBox : SBoundingBox
  m_cSpacePosition : CVector3
  m_cSpaceOrientation : CQuaternion
deriving DecidableEq

/-- The calls a destructor issues to the physics space and to the objects it owns. -/
inductive Call where
  | deleteGrippable (g : CDynamics2DGrippable)
  | cpSpaceRemoveConstraint (c : cpConstraint)
  | cpConstraintFree (c : cpConstraint)
  | cpSpaceRemoveShape (s : cpShape)
  | cpSpaceRemoveBody (b : cpBody)
  | cpShapeFree (s : cpShape)
  | cpBodyFree (b : cpBody)
  | cpSpaceRemoveStaticShape (s : cpShape)
  | cpSpaceReindexStatic
deriving DecidableEq

/-! ## Vector helpers and the modelled library primitives -/

def cpv (x y : ℚ) : cpVect := ⟨x, y⟩

def cpvzero : cpVect := ⟨0, 0⟩

def cpvadd (v1 v2 : cpVect) : cpVect := cpv (v1.x + v2.x) (v1.y + v2.y)

/-- Complex multiplication of two vectors (`cpvrotate`). -/
def cpvrotate (v1 v2 : cpVect) : cpVect :=
  cpv (v1.x * v2.x - v1.y * v2.y) (v1.x * v2.y + v1.y * v2.x)

/-- The product of a vector by a scalar (`CVector3::operator*`). -/
def CVector3.scale (v : CVector3) (k : ℚ) : CVector3 := ⟨v.x * k, v.y * k, v.z * k⟩

def CVector3.SetX (v : CVector3) (x : ℚ) : CVector3 := ⟨x, v.y, v.z⟩

def CVector3.SetY (v : CVector3) (y : ℚ) : CVector3 := ⟨v.x, y, v.z⟩

def CVector3.SetZ (v : CVector3) (z : ℚ) : CVector3 := ⟨v.x, v.y, z⟩

/-- The identity rotation. -/
def CQuaternion.identity : CQuaternion := ⟨1, 0, 0, 0⟩

/-- Modelled from the spec: `CRay3::GetPoint`, the point of the ray at the parametric
distance `f_t` from its start. -/
def CRay3.GetPoint (r : CRay3) (f_t : ℚ) : CVector3 :=
  ⟨r.m_cStart.x + f_t * (r.m_cEnd.x - r.m_cStart.x),
   r.m_cStart.y + f_t * (r.m_cEnd.y - r.m_cStart.y),
   r.m_cStart.z + f_t * (r.m_cEnd.z - r.m_cStart.z)⟩

/-- Modelled from the spec: `cpBodyNew`, a body of the given mass and moment at rest at the
origin with angle zero. -/
def cpBodyNew (E : Externals) (m i : ℚ) : cpBody :=
  { m := m, i := i, p := cpvzero, v := cpvzero, f := cpvzero, a := 0, w := 0, t := 0,
    rot := E.cpvforangle 0 }

/-- Modelled from the spec: `cpBodySetAngle`, which writes the rotation of a body (the angle
and the rotation vector derived from it). -/
def cpBodySetAngle (E : Externals) (b : cpBody) (a : ℚ) : cpBody :=
  { b with a := a, rot := E.cpvforangle a }

/-- Modelled from the spec: `cpBodyResetForces`, which clears the accumulated force and
torque of a body. -/
def cpBodyResetForces (b : cpBody) : cpBody :=
  { b with f := cpvzero, t := 0 }

/-- Modelled from the spec: `cpPolyShapeNew`, a polygon bound to a body, with the vertices
shifted by the offset, elasticity and friction zero and the default collision type. -/
def cpPolyShapeNew (anchor : ShapeAnchor) (verts : List cpVect) (offset : cpVect) : cpShape :=
  { body := anchor, verts := verts.map (fun v => cpvadd offset v), bb := ⟨0, 0, 0, 0⟩,
    e := 0, u := 0, collision_type := EShapeType.SHAPE_NORMAL }

/-- Modelled from the spec: the bounding rectangle of a polygon whose body has position `p`
and rotation vector `rot`: the least rectangle that holds every transformed vertex. -/
def cpPolyBounds (verts : List cpVect) (p rot : cpVect) : cpBB :=
  match verts.map (fun v => cpvadd p (cpvrotate v rot)) with
  | [] => ⟨0, 0, 0, 0⟩
  | v0 :: vs =>
    vs.foldl (fun bb v => ⟨min bb.l v.x, min bb.b v.y, max bb.r v.x, max bb.t v.y⟩)
      ⟨v0.x, v0.y, v0.x, v0.y⟩

/-- Modelled from the spec: `cpShapeUpdate`, which refreshes the cached bounds of a shape from
the position and rotation vector of its body. -/
def cpShapeUpdate (s : cpShape) (p rot : cpVect) : cpShape :=
  { s with bb := cpPolyBounds s.verts p rot }

/-- Position of the engine's ground body (`GetGroundBody`): the origin. -/
def groundPos : cpVect := cpvzero

/-- Rotation vector of the engine's ground body: angle zero. -/
def groundRot : cpVect := cpv 1 0

/-- Modelled from the spec: `ReleaseAll` of the Attachment Controller clears the attacher set
(every attacher is told to detach). -/
def CDynamics2DGrippable.ReleaseAll (g : CDynamics2DGrippable) : CDynamics2DGrippable :=
  { m_listGrippers := [], releaseAllCalls := g.releaseAllCalls + 1 }

/-- Modelled from the spec: the constructor of the Attachment Controller bound to a shape.  It
starts with no attacher and marks the shape as grippable. -/
def CDynamics2DGrippable.create (pt_shape : cpShape) : CDynamics2DGrippable × cpShape :=
  ({ m_listGrippers := [], releaseAllCalls := 0 },
   { pt_shape with collision_type := EShapeType.SHAPE_GRIPPABLE })

/-- Modelled from the spec: `cpSpaceAddShape` registers a shape of a body placed at `p` with
rotation vector `rot` and caches its bounds there. -/
def cpSpaceAddShape (s : cpShape) (p rot : cpVect) : cpShape := cpShapeUpdate s p rot

/-- Modelled from the spec: `cpSpaceAddStaticShape` registers a shape of the ground body as a
static structure and caches its bounds. -/
def cpSpaceAddStaticShape (s : cpShape) : cpShape := cpShapeUpdate s groundPos groundRot

/-- Modelled from the spec: `cpSpaceReindexShape` refreshes the entry of a shape in the spatial
structures, with its cached bounds, from the placement of its body. -/
def cpSpaceReindexShape (s : cpShape) (p rot : cpVect) : cpShape := cpShapeUpdate s p rot

/-- Modelled from the spec: `cpShapeCacheBB` refreshes the cached bounds of a shape from the
placement of its body. -/
def cpShapeCacheBB (s : cpShape) (p rot : cpVect) : cpShape := cpShapeUpdate s p rot

/-- Modelled from the spec: `cpPivotJointNew2` between the ground body and the model body. -/
def cpPivotJointNew2 (anchr1 anchr2 : cpVect) : cpConstraint :=
  { kind := JointKind.pivotJoint anchr1 anchr2, maxForce := none, maxBias := none }

/-- Modelled from the spec: `cpGearJointNew` between the ground body and the model body. -/
def cpGearJointNew (phase ratio : ℚ) : cpConstraint :=
  { kind := JointKind.gearJoint phase ratio, maxForce := none, maxBias := none }

/-- Modelled from the spec: `CDynamics2DEngine::PositionPhysicsToSpace`, the horizontal position
of the body with the height of the position the entity had. -/
def PositionPhysicsToSpace (c_original_pos : CVector3) (pt_body : cpBody) : CVector3 :=
  ⟨pt_body.p.x, pt_body.p.y, c_original_pos.z⟩

/-- Modelled from the spec: `CDynamics2DEngine::OrientationPhysicsToSpace`, the rotation of the
body about the vertical axis as a full orientation. -/
def OrientationPhysicsToSpace (E : Externals) (pt_body : cpBody) : CQuaternion :=
  E.FromAngleAxisZ pt_body.a

/-! ## `CDynamics2DBoxModel` -/

namespace CDynamics2DBoxModel

/-- The vertex array `tVertices` that the constructor and `MoveTo` both write down. -/
def boxVertices (cHalfSize : CVector3) : List cpVect :=
  [cpv (-cHalfSize.x) (-cHalfSize.y),
   cpv (-cHalfSize.x) cHalfSize.y,
   cpv cHalfSize.x cHalfSize.y,
   cpv cHalfSize.x (-cHalfSize.y)]

/-- The four assignments of `CalculateBoundingBox`, for the shape `s`. -/
def setHorizontalExtent (bbox : SBoundingBox) (s : cpShape) : SBoundingBox :=
  { MinCorner := (bbox.MinCorner.SetX s.bb.l).SetY s.bb.b,
    MaxCorner := (bbox.MaxCorner.SetX s.bb.r).SetY s.bb.t }

/-- Method `CalculateBoundingBox`: copies the cached bounds of `m_ptShape`. -/
def CalculateBoundingBox (m : CDynamics2DBoxModel) : Option CDynamics2DBoxModel :=
  match m.m_ptShape with
  | none => none
  | some s => some { m with m_sBoundingBox := setHorizontalExtent m.m_sBoundingBox s }

/-- The constructor `CDynamics2DBoxModel(c_engine, c_entity)`. -/
def construct (E : Externals) (c_entity : CBoxEntity) : CDynamics2DBoxModel :=
  let cHalfSize := c_entity.m_cSize.scale (1 / 2)
  let tVertices := boxVertices cHalfSize
  let cPosition := c_entity.m_cEmbodiedEntity.m_cPosition
  let cZAngle := E.ToEulerAnglesZ c_entity.m_cEmbodiedEntity.m_cOrientation
  let bbox0 : SBoundingBox := ⟨⟨0, 0, 0⟩, ⟨0, 0, 0⟩⟩
  let bbox1 : SBoundingBox := { bbox0 with MinCorner := bbox0.MinCorner.SetZ cPosition.z }
  let bbox2 : SBoundingBox :=
    { bbox1 with MaxCorner := bbox1.MaxCorner.SetZ (cPosition.z + c_entity.m_cSize.z) }
  if c_entity.m_cEmbodiedEntity.m_bMovable then
    let body0 := cpBodyNew E c_entity.m_fMass (E.cpMomentForPoly c_entity.m_fMass tVertices cpvzero)
    let body1 := { body0 with p := cpv cPosition.x cPosition.y }
    let body2 := cpBodySetAngle E body1 cZAngle
    let shape0 := cpSpaceAddShape (cpPolyShapeNew ShapeAnchor.modelBody tVertices cpvzero)
      body2.p body2.rot
    let shape1 := { shape0 with e := 0 }
    let shape2 := { shape1 with u := 7 / 10 }
    let gs := CDynamics2DGrippable.create shape2
    let lin0 := cpPivotJointNew2 cpvzero cpvzero
    let lin1 := { lin0 with maxBias := some 0 }
    let lin2 := { lin1 with maxForce := some (149 / 100) }
    let ang0 := cpGearJointNew 0 1
    let ang1 := { ang0 with maxBias := some 0 }
    let ang2 := { ang1 with maxForce := some (149 / 100) }
    { m_cBoxEntity := c_entity
      m_pcGrippable := some gs.1
      m_fMass := c_entity.m_fMass
      m_ptShape := some gs.2
      m_ptBody := some body2
      m_ptLinearFriction := some lin2
      m_ptAngularFriction := some ang2
      m_sBoundingBox := setHorizontalExtent bbox2 gs.2
      m_cSpacePosition := ⟨0, 0, 0⟩
      m_cSpaceOrientation := CQuaternion.identity }
  else
    let tRot := E.cpvforangle cZAngle
    let tRotated := tVertices.map (fun v => cpvrotate v tRot)
    let shape0 := cpSpaceAddStaticShape
      (cpPolyShapeNew ShapeAnchor.groundBody tRotated (cpv cPosition.x cPosition.y))
    let shape1 := { shape0 with e := 0 }
    let shape2 := { shape1 with u := 1 / 10 }
    let shape3 := { shape2 with collision_type := EShapeType.SHAPE_NORMAL }
    { m_cBoxEntity := c_entity
      m_pcGrippable := none
      m_fMass := c_entity.m_fMass
      m_ptShape := some shape3
      m_ptBody := none
      m_ptLinearFriction := none
      m_ptAngularFriction := none
      m_sBoundingBox := setHorizontalExtent bbox2 shape3
      m_cSpacePosition := ⟨0, 0, 0⟩
      m_cSpaceOrientation := CQuaternion.identity }

/-- The destructor: the calls it issues, in order. -/
def destroy (m : CDynamics2DBoxModel) : Option (List Call) :=
  match m.m_ptBody with
  | some body =>
    match m.m_ptLinearFriction, m.m_ptAngularFriction, m.m_ptShape with
    | some lin, some ang, some shape =>
      some ((match m.m_pcGrippable with
             | some g => [Call.deleteGrippable g]
             | none => []) ++
            [Call.cpSpaceRemoveConstraint lin,
             Call.cpSpaceRemoveConstraint ang,
             Call.cpConstraintFree lin,
             Call.cpConstraintFree ang,
             Call.cpSpaceRemoveShape shape,
             Call.cpSpaceRemoveBody body,
             Call.cpShapeFree shape,
             Call.cpBodyFree body])
    | _, _, _ => none
  | none =>
    match m.m_ptShape with
    | some shape =>
      some [Call.cpSpaceRemoveStaticShape shape, Call.cpShapeFree shape, Call.cpSpaceReindexStatic]
    | none => none

/-- The placement (position and rotation vector) of the body a shape of the model is bound to. -/
def anchorPlacement (m : CDynamics2DBoxModel) (s : cpShape) : Option (cpVect × cpVect) :=
  match s.body with
  | ShapeAnchor.groundBody => some (groundPos, groundRot)
  | ShapeAnchor.modelBody =>
    match m.m_ptBody with
    | some b => some (b.p, b.rot)
    | none => none

/-- Method `CheckIntersectionWithRay(f_t_on_ray, c_ray)`, declared `const`: the returned flag
and the value of the reference argument `f_t_on_ray` after the call. -/
def CheckIntersectionWithRay (E : Externals) (m : CDynamics2DBoxModel) (f_t_on_ray : ℚ)
    (c_ray : CRay3) : Option (Bool × ℚ) :=
  match m.m_ptShape with
  | none => none
  | some shape =>
    match anchorPlacement m shape with
    | none => none
    | some pl =>
      let q := E.cpShapeSegmentQuery shape pl.1 pl.2
        (cpv c_ray.m_cStart.x c_ray.m_cStart.y) (cpv c_ray.m_cEnd.x c_ray.m_cEnd.y)
      let tInfo := q.2
      if q.1 then
        let cIntersectionPoint := c_ray.GetPoint tInfo.t
        if cIntersectionPoint.z ≥ m.m_cBoxEntity.m_cEmbodiedEntity.m_cPosition.z ∧
           cIntersectionPoint.z ≤
             m.m_cBoxEntity.m_cEmbodiedEntity.m_cPosition.z + m.m_cBoxEntity.m_cSize.z then
          some (true, tInfo.t)
        else
          some (false, f_t_on_ray)
      else
        some (false, f_t_on_ray)

/-- The body of `MoveTo` after the requested placement has been written into it. -/
def relocated (E : Externals) (body : cpBody) (c_position : CVector3)
    (c_orientation : CQuaternion) : cpBody :=
  cpBodySetAngle E { body with p := cpv c_position.x c_position.y }
    (E.ToEulerAnglesZ c_orientation)

/-- The probe shape `ptTestShape` of `MoveTo`. -/
def testShape (m : CDynamics2DBoxModel) : cpShape :=
  cpPolyShapeNew ShapeAnchor.modelBody (boxVertices (m.m_cBoxEntity.m_cSize.scale (1 / 2))) cpvzero

/-- Method `MoveTo(c_position, c_orientation, b_check_only)`: the returned flag and the model
after the call. -/
def MoveTo (E : Externals) (m : CDynamics2DBoxModel) (c_position : CVector3)
    (c_orientation : CQuaternion) (b_check_only : Bool) : Option (Bool × CDynamics2DBoxModel) :=
  if m.m_cBoxEntity.m_cEmbodiedEntity.m_bMovable then
    match m.m_ptBody with
    | none => none
    | some body =>
      let tOldPos := body.p
      let fOldA := body.a
      let body1 := relocated E body c_position c_orientation
      let ptTestShape := testShape m
      let nCollision : ℤ := (E.cpSpaceShapeQuery ptTestShape body1.p body1.rot : ℕ)
      if b_check_only = true ∨ nCollision ≠ 0 then
        let body2 := { body1 with p := tOldPos }
        let body3 := cpBodySetAngle E body2 fOldA
        some (decide (nCollision = 0), { m with m_ptBody := some body3 })
      else
        match m.m_pcGrippable, m.m_ptShape with
        | some g, some shape =>
          let m1 := { m with m_ptBody := some body1, m_pcGrippable := some g.ReleaseAll }
          let m2 := { m1 with m_ptShape := some (cpSpaceReindexShape shape body1.p body1.rot) }
          match CalculateBoundingBox m2 with
          | some m3 => some (decide (nCollision = 0), m3)
          | none => none
        | _, _ => none
  else
    let nCollision : ℤ := 1
    some (decide (nCollision = 0), m)

/-- Method `Reset`. -/
def Reset (E : Externals) (m : CDynamics2DBoxModel) : Option CDynamics2DBoxModel :=
  match m.m_ptBody with
  | some body =>
    let cPosition := m.m_cBoxEntity.m_cEmbodiedEntity.m_cInitPosition
    let body1 := { body with p := cpv cPosition.x cPosition.y }
    let cZAngle := E.ToEulerAnglesZ m.m_cBoxEntity.m_cEmbodiedEntity.m_cInitOrientation
    let body2 := cpBodySetAngle E body1 cZAngle
    let body3 := { body2 with v := cpvzero }
    let body4 := { body3 with w := 0 }
    let body5 := cpBodyResetForces body4
    let m1 := { m with m_ptBody := some body5 }
    match m1.m_ptShape with
    | none => none
    | some shape =>
      match anchorPlacement m1 shape with
      | none => none
      | some pl =>
        let m2 := { m1 with m_ptShape := some (cpShapeCacheBB shape pl.1 pl.2) }
        match CalculateBoundingBox m2 with
        | none => none
        | some m3 =>
          match m3.m_pcGrippable with
          | none => none
          | some g => some { m3 with m_pcGrippable := some g.ReleaseAll }
  | none => some m

/-- Method `UpdateEntityStatus`. -/
def UpdateEntityStatus (E : Externals) (m : CDynamics2DBoxModel) : Option CDynamics2DBoxModel :=
  let synced : Option CDynamics2DBoxModel :=
    match m.m_ptBody with
    | some body =>
      match CalculateBoundingBox m with
      | none => none
      | some m1 =>
        let cSpacePosition :=
          PositionPhysicsToSpace m1.m_cBoxEntity.m_cEmbodiedEntity.m_cPosition body
        let cSpaceOrientation := OrientationPhysicsToSpace E body
        let emb := { m1.m_cBoxEntity.m_cEmbodiedEntity with
                     m_cPosition := cSpacePosition, m_cOrientation := cSpaceOrientation }
        some { m1 with
               m_cSpacePosition := cSpacePosition
               m_cSpaceOrientation := cSpaceOrientation
               m_cBoxEntity := { m1.m_cBoxEntity with m_cEmbodiedEntity := emb } }
    | none => some m
  match synced with
  | none => none
  | some m2 =>
    some { m2 with
           m_cBoxEntity := { m2.m_cBoxEntity with
                             m_cComponents := E.UpdateComponents m2.m_cBoxEntity.m_cComponents } }

/-- Method `IsCollidingWithSomething`, declared `const`: the returned flag, and the model,
which a `const` method hands back as it received it. -/
def IsCollidingWithSomething (E : Externals) (m : CDynamics2DBoxModel) :
    Option (Bool × CDynamics2DBoxModel) :=
  match m.m_ptShape with
  | none => none
  | some shape =>
    match anchorPlacement m shape with
    | none => none
    | some pl => some (decide (E.cpSpaceShapeQuery shape pl.1 pl.2 > 0), m)

/-! ### Specification vocabulary for the box model -/

/-- The movable test of `MoveTo`: `m_cBoxEntity.GetEmbodiedEntity().IsMovable()`. -/
def IsMovable (m : CDynamics2DBoxModel) : Bool :=
  m.m_cBoxEntity.m_cEmbodiedEntity.m_bMovable

/-- The movable branch: a dynamic body, both friction constraints and an Attachment
Controller exist, and the shape is bound to the dynamic body. -/
def MovableBranch (m : CDynamics2DBoxModel) : Prop :=
  IsMovable m = true ∧ m.m_ptBody.isSome = true ∧ m.m_ptLinearFriction.isSome = true ∧
  m.m_ptAngularFriction.isSome = true ∧ m.m_pcGrippable.isSome = true ∧
  m.m_ptShape.map cpShape.body = some ShapeAnchor.modelBody

/-- The immovable branch: the shape is bound to the ground body and there is no dynamic body,
no friction constraint and no Attachment Controller. -/
def StaticBranch (m : CDynamics2DBoxModel) : Prop :=
  IsMovable m = false ∧ m.m_ptBody = none ∧ m.m_ptLinearFriction = none ∧
  m.m_ptAngularFriction = none ∧ m.m_pcGrippable = none ∧
  m.m_ptShape.map cpShape.body = some ShapeAnchor.groundBody

/-- The structural invariant of a model: it has a shape and is in one of the two branches. -/
def WellFormed (m : CDynamics2DBoxModel) : Prop :=
  m.m_ptShape.isSome = true ∧ (MovableBranch m ∨ StaticBranch m)

/-- The registered shape of the model has the local geometry of the probe of `MoveTo`. -/
def ShapeOfBox (m : CDynamics2DBoxModel) : Prop :=
  m.m_ptShape.map cpShape.verts = some (testShape m).verts

/-- The count that the shape-overlap query of `MoveTo` reports for the probe shape when the body
is at the requested placement (zero when there is no body to place). -/
def probeCount (E : Externals) (m : CDynamics2DBoxModel) (c_position : CVector3)
    (c_orientation : CQuaternion) : ℕ :=
  match m.m_ptBody with
  | some body =>
    E.cpSpaceShapeQuery (testShape m) (relocated E body c_position c_orientation).p
      (relocated E body c_position c_orientation).rot
  | none => 0

/-- The entity placed at a position with an orientation. -/
def placedAt (c_entity : CBoxEntity) (c_position : CVector3) (c_orientation : CQuaternion) :
    CBoxEntity :=
  { c_entity with
    m_cEmbodiedEntity := { c_entity.m_cEmbodiedEntity with
                           m_cPosition := c_position, m_cOrientation := c_orientation } }

/-- The horizontal part of a bounding box: the X and Y coordinates of both corners. -/
def horizontalExtent (bbox : SBoundingBox) : cpBB :=
  ⟨bbox.MinCorner.x, bbox.MinCorner.y, bbox.MaxCorner.x, bbox.MaxCorner.y⟩

/-- The vertical part of a bounding box: the Z coordinates of both corners. -/
def verticalExtent (bbox : SBoundingBox) : ℚ × ℚ :=
  (bbox.MinCorner.z, bbox.MaxCorner.z)

/-- The states a model built for `c_entity` can be in after any sequence of calls of its
methods, each call made against any state of the surrounding physics space. -/
inductive Reachable (c_entity : CBoxEntity) : CDynamics2DBoxModel → Prop where
  | constructed (E : Externals) : Reachable c_entity (construct E c_entity)
  | afterMoveTo (E : Externals) (m m' : CDynamics2DBoxModel) (c_position : CVector3)
      (c_orientation : CQuaternion) (b_check_only r : Bool) :
      Reachable c_entity m →
      MoveTo E m c_position c_orientation b_check_only = some (r, m') →
      Reachable c_entity m'
  | afterReset (E : Externals) (m m' : CDynamics2DBoxModel) :
      Reachable c_entity m → Reset E m = some m' → Reachable c_entity m'
  | afterUpdateEntityStatus (E : Externals) (m m' : CDynamics2DBoxModel) :
      Reachable c_entity m → UpdateEntityStatus E m = some m' → Reachable c_entity m'
  | afterCheckIntersectionWithRay (E : Externals) (m : CDynamics2DBoxModel) (f_t_on_ray : ℚ)
      (c_ray : CRay3) (r : Bool × ℚ) :
      Reachable c_entity m → CheckIntersectionWithRay E m f_t_on_ray c_ray = some r →
      Reachable c_entity m
  | afterIsCollidingWithSomething (E : Externals) (m m' : CDynamics2DBoxModel) (r : Bool) :
      Reachable c_entity m → IsCollidingWithSomething E m = some (r, m') →
      Reachable c_entity m'

/-- What every state of a run of the model built for `c_entity` satisfies: the structural
invariant, the movable flag and the size of `c_entity`, and for a movable model a registered
shape with the geometry of the box. -/
def RunInvariant (c_entity : CBoxEntity) (m : CDynamics2DBoxModel) : Prop :=
  WellFormed m ∧ IsMovable m = c_entity.m_cEmbodiedEntity.m_bMovable ∧
  m.m_cBoxEntity.m_cSize = c_entity.m_cSize ∧ (IsMovable m = true → ShapeOfBox m)

/-- The stage of the teardown a call belongs to: the Attachment Controller (0), the friction
constraints (1), the shape (2), the body (3); the static reindex closes the static teardown. -/
def stage : Call → ℕ
  | Call.deleteGrippable _ => 0
  | Call.cpSpaceRemoveConstraint _ => 1
  | Call.cpConstraintFree _ => 1
  | Call.cpSpaceRemoveShape _ => 2
  | Call.cpShapeFree _ => 2
  | Call.cpSpaceRemoveStaticShape _ => 2
  | Call.cpSpaceRemoveBody _ => 3
  | Call.cpBodyFree _ => 3
  | Call.cpSpaceReindexStatic => 4

/-- The order of teardown as the specification words it: the calls come stage after stage,
so that no call of a later stage precedes a call of an earlier one. -/
def StagedInOrder (calls : List Call) : Prop :=
  List.Pairwise (fun c1 c2 => stage c1 ≤ stage c2) calls

end CDynamics2DBoxModel

/-! ## `CCI_Controller` -/

/-- The object behind a `CCI_Actuator*`: the name of its dynamic class and its address. -/
structure CCI_Actuator where
  dynamicType : String
  address : ℕ
deriving DecidableEq

/-- The object behind a `CCI_Sensor*`: the name of its dynamic class and its address. -/
structure CCI_Sensor where
  dynamicType : String
  address : ℕ
deriving DecidableEq

/-- Run-time type information: `derives d t` tells whether an object of dynamic class `d` is
also an object of class `t`. -/
structure ClassHierarchy where
  derives : String → String → Bool

/-- The exception thrown by `THROW_ARGOSEXCEPTION`, with the text streamed into it. -/
structure CARGoSException where
  what : String
deriving DecidableEq

/-- The `dynamic_cast` of a pointer to a pointer to class `target`: a null pointer for a null
pointer and for an object that is not of class `target`. -/
def dynamic_cast {α : Type} (H : ClassHierarchy) (dynamicType : α → String) (target : String)
    (p : Option α) : Option α :=
  match p with
  | none => none
  | some o => if H.derives (dynamicType o) target = true then some o else none

/-- Lookup in a `std::map` with string keys (`find`): the mapped value, if the key is there. -/
def TMap.find {β : Type} : List (String × β) → String → Option β
  | [], _ => none
  | (k, v) :: rest, key => if k = key then some v else TMap.find rest key

/-- The assignment `map[key] = value` of a `std::map` with string keys, kept in key order. -/
def TMap.assign {β : Type} : List (String × β) → String → β → List (String × β)
  | [], key, value => [(key, value)]
  | (k, v) :: rest, key, value =>
    if k = key then (key, value) :: rest
    else if key < k then (key, value) :: (k, v) :: rest
    else (k, v) :: TMap.assign rest key value

/-- The controller (`CCI_Controller`): the two maps from labels to pointers, and the id. -/
structure CCI_Controller where
  m_mapActuators : List (String × Option CCI_Actuator)
  m_mapSensors : List (String × Option CCI_Sensor)
  m_strId : String
deriving DecidableEq

namespace CCI_Controller

/-- Template method `GetActuator<ACTUATOR_IMPL>(str_actuator_type)`; `ACTUATOR_IMPL` is the
(demangled) name of the requested class. -/
def GetActuator (H : ClassHierarchy) (c : CCI_Controller) (ACTUATOR_IMPL : String)
    (str_actuator_type : String) : Except CARGoSException CCI_Actuator :=
  match TMap.find c.m_mapActuators str_actuator_type with
  | some second =>
    match dynamic_cast H CCI_Actuator.dynamicType ACTUATOR_IMPL second with
    | some pcActuator => Except.ok pcActuator
    | none =>
      Except.error ⟨"Actuator type " ++ str_actuator_type ++ " cannot be cast to type " ++
        ACTUATOR_IMPL⟩
  | none =>
    Except.error ⟨"Unknown actuator type " ++ str_actuator_type ++
      " requested in controller. Did you add it to the XML file?"⟩

/-- Template method `GetSensor<SENSOR_IMPL>(str_sensor_type)`; `SENSOR_IMPL` is the (demangled)
name of the requested class. -/
def GetSensor (H : ClassHierarchy) (c : CCI_Controller) (SENSOR_IMPL : String)
    (str_sensor_type : String) : Except CARGoSException CCI_Sensor :=
  match TMap.find c.m_mapSensors str_sensor_type with
  | some second =>
    match dynamic_cast H CCI_Sensor.dynamicType SENSOR_IMPL second with
    | some pcSensor => Except.ok pcSensor
    | none =>
      Except.error ⟨"Sensor type " ++ str_sensor_type ++ " cannot be cast to type " ++
        SENSOR_IMPL⟩
  | none =>
    Except.error ⟨"Unknown sensor type " ++ str_sensor_type ++
      " requested in controller. Did you add it to the XML file?"⟩

/-- Method `AddActuator(str_actuator_type, pc_actuator)`. -/
def AddActuator (c : CCI_Controller) (str_actuator_type : String)
    (pc_actuator : Option CCI_Actuator) : CCI_Controller :=
  { c with m_mapActuators := TMap.assign c.m_mapActuators str_actuator_type pc_actuator }

/-- Method `AddSensor(str_sensor_type, pc_sensor)`. -/
def AddSensor (c : CCI_Controller) (str_sensor_type : String)
    (pc_sensor : Option CCI_Sensor) : CCI_Controller :=
  { c with m_mapSensors := TMap.assign c.m_mapSensors str_sensor_type pc_sensor }

end CCI_Controller

/-! ## Concrete scenes used to exercise the statements -/

namespace Scene

/-- A physics space without obstacles, seen at yaw zero: every orientation has Z angle zero,
the unit vector of the angle is (1, 0), no shape overlaps another and no segment hits. -/
def empty : Externals :=
  { ToEulerAnglesZ := fun _ => 0
    FromAngleAxisZ := fun _ => CQuaternion.identity
    cpvforangle := fun _ => cpv 1 0
    cpMomentForPoly := fun m _ _ => m
    cpSpaceShapeQuery := fun _ _ _ => 0
    cpShapeSegmentQuery := fun _ _ _ _ _ => (false, ⟨1⟩)
    UpdateComponents := fun n => n + 1 }

/-- The space of `empty` with one obstacle that overlaps every placement. -/
def crowded : Externals :=
  { empty with cpSpaceShapeQuery := fun _ _ _ => 1 }

/-- The space of `empty` with one obstacle that overlaps exactly the shapes whose body stands
at (5, 5). -/
def pillar : Externals :=
  { empty with cpSpaceShapeQuery := fun _ p _ => if p = cpv 5 5 then 1 else 0 }

/-- The space of `empty` in which the segment query reports a hit at the parameter `t`. -/
def rayHit (t : ℚ) : Externals :=
  { empty with cpShapeSegmentQuery := fun _ _ _ _ _ => (true, ⟨t⟩) }

/-- A box of size (1, 1, 1) and mass 1 whose base lies at the height `z` above the origin. -/
def unitBox (movable : Bool) (z : ℚ) : CBoxEntity :=
  { m_cEmbodiedEntity :=
      { m_cPosition := ⟨0, 0, z⟩
        m_cOrientation := CQuaternion.identity
        m_cInitPosition := ⟨0, 0, z⟩
        m_cInitOrientation := CQuaternion.identity
        m_bMovable := movable }
    m_cSize := ⟨1, 1, 1⟩
    m_fMass := 1
    m_cComponents := 0 }

/-- The model of the movable unit box built at the origin, later found at (5, 5) in motion,
under load and with two attachers gripping it. -/
def grippedBox : CDynamics2DBoxModel :=
  { CDynamics2DBoxModel.construct empty (unitBox true 0) with
    m_ptBody := some { m := 1, i := 1, p := cpv 5 5, v := cpv 1 0, f := cpv 2 0, a := 0, w := 3,
                       t := 1, rot := cpv 1 0 }
    m_pcGrippable := some { m_listGrippers := [7, 9], releaseAllCalls := 0 } }

/-- The vertical ray from (0, 0, -1) to (0, 0, 2). -/
def verticalRay : CRay3 := ⟨⟨0, 0, -1⟩, ⟨0, 0, 2⟩⟩

/-- A class hierarchy with a wheels actuator class deriving from the actuator base class. -/
def hierarchy : ClassHierarchy :=
  { derives := fun d t => d == t || (d == "CWheelsActuator" && t == "CCI_Actuator") }

/-- A controller with one actuator and one sensor registered. -/
def controller : CCI_Controller :=
  { m_mapActuators := [("wheels", some ⟨"CWheelsActuator", 1⟩)]
    m_mapSensors := [("proximity", some ⟨"CProximitySensor", 2⟩)]
    m_strId := "c0" }

end Scene

/-! ## Properties of the box model -/

namespace CDynamics2DBoxModel

/-! ### How each method evaluates -/

theorem MoveTo_immovable (E : Externals) (m : CDynamics2DBoxModel) (c_position : CVector3)
    (c_orientation : CQuaternion) (b_check_only : Bool) (hm : IsMovable m = false) :
    MoveTo E m c_position c_orientation b_check_only = some (false, m) := by
  unfold IsMovable at hm
  simp [MoveTo, hm]

theorem MoveTo_rollback (E : Externals) (m : CDynamics2DBoxModel) (c_position : CVector3)
    (c_orientation : CQuaternion) (b_check_only : Bool) (body : cpBody)
    (hm : IsMovable m = true) (hb : m.m_ptBody = some body)
    (h : b_check_only = true ∨ probeCount E m c_position c_orientation ≠ 0) :
    MoveTo E m c_position c_orientation b_check_only =
      some (decide (probeCount E m c_position c_orientation = 0),
        { m with m_ptBody := some (cpBodySetAngle E
            { relocated E body c_position c_orientation with p := body.p } body.a) }) := by
  unfold IsMovable at hm
  have hc : (b_check_only = true ∨
      ((E.cpSpaceShapeQuery (testShape m) (relocated E body c_position c_orientation).p
        (relocated E body c_position c_orientation).rot : ℕ) : ℤ) ≠ 0) := by
    rcases h with h | h
    · exact Or.inl h
    · right
      simpa [probeCount, hb] using h
  simp only [MoveTo, hm, hb, if_true]
  rw [if_pos hc]
  simp [probeCount, hb]

theorem MoveTo_commit (E : Externals) (m : CDynamics2DBoxModel) (c_position : CVector3)
    (c_orientation : CQuaternion) (body : cpBody) (g : CDynamics2DGrippable) (shape : cpShape)
    (hm : IsMovable m = true) (hb : m.m_ptBody = some body) (hg : m.m_pcGrippable = some g)
    (hs : m.m_ptShape = some shape) (h : probeCount E m c_position c_orientation = 0) :
    MoveTo E m c_position c_orientation false =
      some (true,
        { m with
          m_ptBody := some (relocated E body c_position c_orientation)
          m_pcGrippable := some g.ReleaseAll
          m_ptShape := some (cpSpaceReindexShape shape
            (relocated E body c_position c_orientation).p
            (relocated E body c_position c_orientation).rot)
          m_sBoundingBox := setHorizontalExtent m.m_sBoundingBox (cpSpaceReindexShape shape
            (relocated E body c_position c_orientation).p
            (relocated E body c_position c_orientation).rot) }) := by
  unfold IsMovable at hm
  have h0 : E.cpSpaceShapeQuery (testShape m) (relocated E body c_position c_orientation).p
        (relocated E body c_position c_orientation).rot = 0 := by
    simpa [probeCount, hb] using h
  simp [MoveTo, hm, hb, hg, hs, h0, CalculateBoundingBox]

/-! ### The structural invariant -/

theorem WellFormed.movable_parts {m : CDynamics2DBoxModel} (hwf : WellFormed m)
    (hm : IsMovable m = true) :
    ∃ body g shape lin ang, m.m_ptBody = some body ∧ m.m_pcGrippable = some g ∧
      m.m_ptShape = some shape ∧ shape.body = ShapeAnchor.modelBody ∧
      m.m_ptLinearFriction = some lin ∧ m.m_ptAngularFriction = some ang := by
  rcases hwf with ⟨_, hmb | hsb⟩
  · obtain ⟨_, hb, hl, ha, hg, hs⟩ := hmb
    obtain ⟨body, hb⟩ := Option.isSome_iff_exists.mp hb
    obtain ⟨lin, hl⟩ := Option.isSome_iff_exists.mp hl
    obtain ⟨ang, ha⟩ := Option.isSome_iff_exists.mp ha
    obtain ⟨g, hg⟩ := Option.isSome_iff_exists.mp hg
    obtain ⟨shape, hs1, hs2⟩ := Option.map_eq_some'.mp hs
    exact ⟨body, g, shape, lin, ang, hb, hg, hs1, hs2, hl, ha⟩
  · rw [hsb.1] at hm
    cases hm

theorem WellFormed.static_parts {m : CDynamics2DBoxModel} (hwf : WellFormed m)
    (hm : IsMovable m = false) :
    ∃ shape, m.m_ptShape = some shape ∧ shape.body = ShapeAnchor.groundBody ∧
      m.m_ptBody = none ∧ m.m_pcGrippable = none ∧
      m.m_ptLinearFriction = none ∧ m.m_ptAngularFriction = none := by
  rcases hwf with ⟨_, hmb | hsb⟩
  · rw [hmb.1] at hm
    cases hm
  · obtain ⟨_, hb, hl, ha, hg, hs⟩ := hsb
    obtain ⟨shape, hs1, hs2⟩ := Option.map_eq_some'.mp hs
    exact ⟨shape, hs1, hs2, hb, hg, hl, ha⟩

theorem wellFormed_construct (E : Externals) (c_entity : CBoxEntity) :
    WellFormed (construct E c_entity) := by
  unfold WellFormed MovableBranch StaticBranch IsMovable construct
  cases h : c_entity.m_cEmbodiedEntity.m_bMovable <;>
    simp [h, CDynamics2DGrippable.create, cpSpaceAddShape, cpSpaceAddStaticShape, cpShapeUpdate,
      cpPolyShapeNew]

theorem probeCount_immovable (E : Externals) (m : CDynamics2DBoxModel) (c_position : CVector3)
    (c_orientation : CQuaternion) (hb : m.m_ptBody = none) :
    probeCount E m c_position c_orientation = 0 := by
  simp [probeCount, hb]

/-! ### Movement -/

/-- C1: whenever `MoveTo` does not commit the move (the entity is immovable, or `b_check_only`
is true, or the shape-overlap query for the probe reports a nonzero count), the call returns and
the position, angle, linear and angular velocity of the body and the bounding box of the model
are what they were before the call; so are the forces, the shape, the Attachment Controller and
the entity, and the whole model when the rotation vector of the body was the one of its angle. -/
theorem MoveTo_not_committed_keeps_state (E : Externals) (m : CDynamics2DBoxModel)
    (c_position : CVector3) (c_orientation : CQuaternion) (b_check_only : Bool)
    (hwf : WellFormed m)
    (h : IsMovable m = false ∨ b_check_only = true ∨
      probeCount E m c_position c_orientation ≠ 0) :
    ∃ r m', MoveTo E m c_position c_orientation b_check_only = some (r, m') ∧
      m'.m_ptBody.map cpBody.p = m.m_ptBody.map cpBody.p ∧
      m'.m_ptBody.map cpBody.a = m.m_ptBody.map cpBody.a ∧
      m'.m_ptBody.map cpBody.v = m.m_ptBody.map cpBody.v ∧
      m'.m_ptBody.map cpBody.w = m.m_ptBody.map cpBody.w ∧
      m'.m_sBoundingBox = m.m_sBoundingBox ∧
      m'.m_ptBody.map cpBody.f = m.m_ptBody.map cpBody.f ∧
      m'.m_ptBody.map cpBody.t = m.m_ptBody.map cpBody.t ∧
      m'.m_ptShape = m.m_ptShape ∧ m'.m_pcGrippable = m.m_pcGrippable ∧
      m'.m_cBoxEntity = m.m_cBoxEntity ∧
      ((∀ b, m.m_ptBody = some b → b.rot = E.cpvforangle b.a) → m' = m) := by
  cases hm : IsMovable m with
  | false =>
    refine ⟨false, m, MoveTo_immovable E m _ _ _ hm, rfl, rfl, rfl, rfl, rfl, rfl, rfl, rfl, rfl,
      rfl, fun _ => rfl⟩
  | true =>
    obtain ⟨body, g, shape, lin, ang, hb, _, _, _, _, _⟩ := hwf.movable_parts hm
    have h' : b_check_only = true ∨ probeCount E m c_position c_orientation ≠ 0 := by
      rcases h with h | h
      · rw [hm] at h
        cases h
      · exact h
    refine ⟨_, _, MoveTo_rollback E m _ _ _ body hm hb h', ?_⟩
    simp only [hb, Option.map_some', cpBodySetAngle, relocated, true_and]
    intro hrot
    have hr := hrot body rfl
    cases m
    cases body
    simp_all

/-- C1, at an instance: a move of the unit box into an occupied place. -/
theorem MoveTo_not_committed_keeps_state_witness :
    WellFormed (construct Scene.crowded (Scene.unitBox true 0)) ∧
    probeCount Scene.crowded (construct Scene.crowded (Scene.unitBox true 0)) ⟨5, 5, 0⟩
      CQuaternion.identity ≠ 0 ∧
    ∃ r m', MoveTo Scene.crowded (construct Scene.crowded (Scene.unitBox true 0)) ⟨5, 5, 0⟩
        CQuaternion.identity false = some (r, m') ∧
      m'.m_ptBody.map cpBody.p =
        (construct Scene.crowded (Scene.unitBox true 0)).m_ptBody.map cpBody.p ∧
      m'.m_sBoundingBox = (construct Scene.crowded (Scene.unitBox true 0)).m_sBoundingBox := by
  have hc : probeCount Scene.crowded (construct Scene.crowded (Scene.unitBox true 0)) ⟨5, 5, 0⟩
      CQuaternion.identity ≠ 0 := by
    simp [probeCount, construct, Scene.unitBox, Scene.crowded]
  obtain ⟨r, m', h1, h2, _, _, _, h3, _⟩ :=
    MoveTo_not_committed_keeps_state Scene.crowded
      (construct Scene.crowded (Scene.unitBox true 0)) ⟨5, 5, 0⟩ CQuaternion.identity false
      (wellFormed_construct _ _) (Or.inr (Or.inr hc))
  exact ⟨wellFormed_construct _ _, hc, r, m', h1, h2, h3⟩

/-- The probe shape and the placement of `MoveTo`, written out: the probe is the polygon of the
four corners of the half size, bound to the body of the model, and the body stands at the X and Y
of the requested position with the rotation vector of the Z angle of the requested orientation. -/
theorem probeCount_eq (E : Externals) (m : CDynamics2DBoxModel) (c_position : CVector3)
    (c_orientation : CQuaternion) (body : cpBody) (hb : m.m_ptBody = some body) :
    probeCount E m c_position c_orientation =
      E.cpSpaceShapeQuery
        { body := ShapeAnchor.modelBody
          verts := [⟨-(m.m_cBoxEntity.m_cSize.x * (1 / 2)), -(m.m_cBoxEntity.m_cSize.y * (1 / 2))⟩,
                    ⟨-(m.m_cBoxEntity.m_cSize.x * (1 / 2)), m.m_cBoxEntity.m_cSize.y * (1 / 2)⟩,
                    ⟨m.m_cBoxEntity.m_cSize.x * (1 / 2), m.m_cBoxEntity.m_cSize.y * (1 / 2)⟩,
                    ⟨m.m_cBoxEntity.m_cSize.x * (1 / 2), -(m.m_cBoxEntity.m_cSize.y * (1 / 2))⟩]
          bb := ⟨0, 0, 0, 0⟩
          e := 0
          u := 0
          collision_type := EShapeType.SHAPE_NORMAL }
        ⟨c_position.x, c_position.y⟩
        (E.cpvforangle (E.ToEulerAnglesZ c_orientation)) := by
  simp [probeCount, hb, testShape, relocated, cpBodySetAngle, cpPolyShapeNew, boxVertices,
    CVector3.scale, cpvadd, cpvzero, cpv]

/-- C2: `MoveTo` returns, and its result is true exactly when the entity is movable and the
shape-overlap query reports no collision for the probe shape (the polygon of the four corners
of the half size of the box, bound to the body) with the body placed at the X and Y of the
requested position and rotated by the Z angle of the requested orientation; the result is the
same for both values of `b_check_only`, and it is false for an immovable entity. -/
theorem MoveTo_result (E : Externals) (m : CDynamics2DBoxModel) (c_position : CVector3)
    (c_orientation : CQuaternion) (b_check_only : Bool) (hwf : WellFormed m) :
    (∃ m', MoveTo E m c_position c_orientation b_check_only =
      some (decide (IsMovable m = true ∧
        E.cpSpaceShapeQuery
          { body := ShapeAnchor.modelBody
            verts :=
              [⟨-(m.m_cBoxEntity.m_cSize.x * (1 / 2)), -(m.m_cBoxEntity.m_cSize.y * (1 / 2))⟩,
               ⟨-(m.m_cBoxEntity.m_cSize.x * (1 / 2)), m.m_cBoxEntity.m_cSize.y * (1 / 2)⟩,
               ⟨m.m_cBoxEntity.m_cSize.x * (1 / 2), m.m_cBoxEntity.m_cSize.y * (1 / 2)⟩,
               ⟨m.m_cBoxEntity.m_cSize.x * (1 / 2), -(m.m_cBoxEntity.m_cSize.y * (1 / 2))⟩]
            bb := ⟨0, 0, 0, 0⟩
            e := 0
            u := 0
            collision_type := EShapeType.SHAPE_NORMAL }
          ⟨c_position.x, c_position.y⟩
          (E.cpvforangle (E.ToEulerAnglesZ c_orientation)) = 0), m')) ∧
    (MoveTo E m c_position c_orientation true).map Prod.fst =
      (MoveTo E m c_position c_orientation false).map Prod.fst ∧
    (IsMovable m = false →
      (MoveTo E m c_position c_orientation b_check_only).map Prod.fst = some false) := by
  have key : ∀ chk : Bool, ∃ m', MoveTo E m c_position c_orientation chk =
      some (decide (IsMovable m = true ∧
        E.cpSpaceShapeQuery
          { body := ShapeAnchor.modelBody
            verts :=
              [⟨-(m.m_cBoxEntity.m_cSize.x * (1 / 2)), -(m.m_cBoxEntity.m_cSize.y * (1 / 2))⟩,
               ⟨-(m.m_cBoxEntity.m_cSize.x * (1 / 2)), m.m_cBoxEntity.m_cSize.y * (1 / 2)⟩,
               ⟨m.m_cBoxEntity.m_cSize.x * (1 / 2), m.m_cBoxEntity.m_cSize.y * (1 / 2)⟩,
               ⟨m.m_cBoxEntity.m_cSize.x * (1 / 2), -(m.m_cBoxEntity.m_cSize.y * (1 / 2))⟩]
            bb := ⟨0, 0, 0, 0⟩
            e := 0
            u := 0
            collision_type := EShapeType.SHAPE_NORMAL }
          ⟨c_position.x, c_position.y⟩
          (E.cpvforangle (E.ToEulerAnglesZ c_orientation)) = 0), m') := by
    intro chk
    cases hm : IsMovable m with
    | false =>
      exact ⟨m, by simpa using MoveTo_immovable E m _ _ chk hm⟩
    | true =>
      obtain ⟨body, g, shape, lin, ang, hb, hg, hs, _, _, _⟩ := hwf.movable_parts hm
      rw [← probeCount_eq E m c_position c_orientation body hb]
      by_cases hc : chk = true ∨ probeCount E m c_position c_orientation ≠ 0
      · exact ⟨_, by simpa using MoveTo_rollback E m _ _ chk body hm hb hc⟩
      · push_neg at hc
        obtain ⟨hchk, h0⟩ := hc
        have hchk' : chk = false := by simpa using hchk
        subst hchk'
        exact ⟨_, by simpa [h0] using MoveTo_commit E m _ _ body g shape hm hb hg hs h0⟩
  refine ⟨key b_check_only, ?_, ?_⟩
  · obtain ⟨m1, h1⟩ := key true
    obtain ⟨m2, h2⟩ := key false
    rw [h1, h2]
    rfl
  · intro hm
    obtain ⟨m1, h1⟩ := key b_check_only
    rw [h1]
    simp [hm]

/-- C2, at an instance: with an obstacle at (5, 5) and the unit box built at the origin, the
move to (5, 5, 0) is refused and the move to (1, 1, 0) is allowed. -/
theorem MoveTo_result_witness :
    WellFormed (construct Scene.pillar (Scene.unitBox true 0)) ∧
    (MoveTo Scene.pillar (construct Scene.pillar (Scene.unitBox true 0)) ⟨5, 5, 0⟩
      CQuaternion.identity false).map Prod.fst = some false ∧
    (MoveTo Scene.pillar (construct Scene.pillar (Scene.unitBox true 0)) ⟨1, 1, 0⟩
      CQuaternion.identity false).map Prod.fst = some true := by
  refine ⟨wellFormed_construct _ _, ?_, ?_⟩
  · obtain ⟨m', h⟩ := (MoveTo_result Scene.pillar (construct Scene.pillar (Scene.unitBox true 0))
      ⟨5, 5, 0⟩ CQuaternion.identity false (wellFormed_construct _ _)).1
    rw [h]
    simp [Scene.pillar, cpv]
  · obtain ⟨m', h⟩ := (MoveTo_result Scene.pillar (construct Scene.pillar (Scene.unitBox true 0))
      ⟨1, 1, 0⟩ CQuaternion.identity false (wellFormed_construct _ _)).1
    rw [h]
    simp [Scene.pillar, cpv, IsMovable, construct, Scene.unitBox]

theorem horizontalExtent_setHorizontalExtent (bbox : SBoundingBox) (s : cpShape) :
    horizontalExtent (setHorizontalExtent bbox s) = s.bb := by
  simp [horizontalExtent, setHorizontalExtent, CVector3.SetX, CVector3.SetY]

theorem verticalExtent_setHorizontalExtent (bbox : SBoundingBox) (s : cpShape) :
    verticalExtent (setHorizontalExtent bbox s) = verticalExtent bbox := by
  simp [verticalExtent, setHorizontalExtent, CVector3.SetX, CVector3.SetY]

theorem boundingBox_ext (b1 b2 : SBoundingBox) (hh : horizontalExtent b1 = horizontalExtent b2)
    (hv : verticalExtent b1 = verticalExtent b2) : b1 = b2 := by
  obtain ⟨⟨x1, y1, z1⟩, ⟨x2, y2, z2⟩⟩ := b1
  obtain ⟨⟨x3, y3, z3⟩, ⟨x4, y4, z4⟩⟩ := b2
  simp only [horizontalExtent, verticalExtent, cpBB.mk.injEq, Prod.mk.injEq] at hh hv
  obtain ⟨h1, h2, h3, h4⟩ := hh
  obtain ⟨h5, h6⟩ := hv
  subst h1 h2 h3 h4 h5 h6
  rfl

/-- The bounding box the constructor computes for a movable entity. -/
theorem construct_movable_boundingBox (E : Externals) (c_entity : CBoxEntity)
    (hm : c_entity.m_cEmbodiedEntity.m_bMovable = true) :
    horizontalExtent (construct E c_entity).m_sBoundingBox =
      cpPolyBounds
        (cpPolyShapeNew ShapeAnchor.modelBody (boxVertices (c_entity.m_cSize.scale (1 / 2)))
          cpvzero).verts
        (cpv c_entity.m_cEmbodiedEntity.m_cPosition.x c_entity.m_cEmbodiedEntity.m_cPosition.y)
        (E.cpvforangle (E.ToEulerAnglesZ c_entity.m_cEmbodiedEntity.m_cOrientation)) ∧
    verticalExtent (construct E c_entity).m_sBoundingBox =
      (c_entity.m_cEmbodiedEntity.m_cPosition.z,
       c_entity.m_cEmbodiedEntity.m_cPosition.z + c_entity.m_cSize.z) := by
  constructor
  · simp only [construct, hm, if_true, horizontalExtent_setHorizontalExtent]
    simp [CDynamics2DGrippable.create, cpSpaceAddShape, cpShapeUpdate, cpBodySetAngle]
  · simp only [construct, hm, if_true, verticalExtent_setHorizontalExtent]
    simp [verticalExtent, CVector3.SetZ]

/-- The cached bounds of the unit square placed at (5, 5) with angle zero. -/
theorem unitSquare_bounds :
    cpPolyBounds
      (cpPolyShapeNew ShapeAnchor.modelBody
        (boxVertices ((⟨1, 1, 1⟩ : CVector3).scale (1 / 2))) cpvzero).verts
      (cpv 5 5) (cpv 1 0) = ⟨9 / 2, 9 / 2, 11 / 2, 11 / 2⟩ := by
  simp only [cpPolyBounds, cpPolyShapeNew, boxVertices, CVector3.scale, cpvadd, cpvrotate, cpv,
    cpvzero, List.map, List.foldl]
  norm_num

/-- What a committed move does to the bounding box: the horizontal extent becomes the one the
constructor computes at the requested placement, the vertical extent stays. -/
theorem MoveTo_commit_extents (E : Externals) (m : CDynamics2DBoxModel)
    (c_position : CVector3) (c_orientation : CQuaternion)
    (hwf : WellFormed m) (hgeo : ShapeOfBox m) (hm : IsMovable m = true)
    (h0 : probeCount E m c_position c_orientation = 0) :
    ∃ m', MoveTo E m c_position c_orientation false = some (true, m') ∧
      horizontalExtent m'.m_sBoundingBox =
        horizontalExtent
          (construct E (placedAt m.m_cBoxEntity c_position c_orientation)).m_sBoundingBox ∧
      verticalExtent m'.m_sBoundingBox = verticalExtent m.m_sBoundingBox := by
  obtain ⟨body, g, shape, lin, ang, hb, hg, hs, _, _, _⟩ := hwf.movable_parts hm
  have hmv : (placedAt m.m_cBoxEntity c_position c_orientation).m_cEmbodiedEntity.m_bMovable
      = true := by
    simpa [placedAt, IsMovable] using hm
  have hverts : shape.verts = (testShape m).verts := by
    simpa [ShapeOfBox, hs] using hgeo
  obtain ⟨hch, _⟩ := construct_movable_boundingBox E
    (placedAt m.m_cBoxEntity c_position c_orientation) hmv
  refine ⟨_, MoveTo_commit E m _ _ body g shape hm hb hg hs h0, ?_,
    verticalExtent_setHorizontalExtent _ _⟩
  rw [hch, horizontalExtent_setHorizontalExtent]
  simp [cpSpaceReindexShape, cpShapeUpdate, hverts, testShape, relocated, cpBodySetAngle,
    placedAt]

theorem shapeOfBox_construct (E : Externals) (c_entity : CBoxEntity)
    (hm : c_entity.m_cEmbodiedEntity.m_bMovable = true) :
    ShapeOfBox (construct E c_entity) := by
  simp [ShapeOfBox, construct, hm, testShape, CDynamics2DGrippable.create, cpSpaceAddShape,
    cpShapeUpdate]

/-- C3 (as amended): after a `MoveTo` of a movable model with `b_check_only` false whose overlap
query reports no collision, the X and Y extents of the bounding box are those the constructor
computes for the same box placed at the requested position with the requested orientation, and
the Z extent is the one the model had before the call; the whole box therefore equals the
constructed one when the model's Z extent already was the one of the requested position.  For
the 1x1x1 box built at the origin and moved to (5, 5, 0) with identity orientation the box is
min (4.5, 4.5, 0), max (5.5, 5.5, 1). -/
theorem MoveTo_commit_boundingBox (E : Externals) (m : CDynamics2DBoxModel)
    (c_position : CVector3) (c_orientation : CQuaternion)
    (hwf : WellFormed m) (hgeo : ShapeOfBox m) (hm : IsMovable m = true)
    (h0 : probeCount E m c_position c_orientation = 0) :
    ∃ m', MoveTo E m c_position c_orientation false = some (true, m') ∧
      horizontalExtent m'.m_sBoundingBox =
        horizontalExtent
          (construct E (placedAt m.m_cBoxEntity c_position c_orientation)).m_sBoundingBox ∧
      verticalExtent m'.m_sBoundingBox = verticalExtent m.m_sBoundingBox ∧
      (verticalExtent m.m_sBoundingBox =
          (c_position.z, c_position.z + m.m_cBoxEntity.m_cSize.z) →
        m'.m_sBoundingBox =
          (construct E (placedAt m.m_cBoxEntity c_position c_orientation)).m_sBoundingBox) ∧
      (m = construct E (Scene.unitBox true 0) → c_position = ⟨5, 5, 0⟩ →
        c_orientation = CQuaternion.identity → E.ToEulerAnglesZ CQuaternion.identity = 0 →
        E.cpvforangle 0 = cpv 1 0 →
        m'.m_sBoundingBox = ⟨⟨9 / 2, 9 / 2, 0⟩, ⟨11 / 2, 11 / 2, 1⟩⟩) := by
  have hmv : (placedAt m.m_cBoxEntity c_position c_orientation).m_cEmbodiedEntity.m_bMovable
      = true := by
    simpa [placedAt, IsMovable] using hm
  obtain ⟨hch, hcv⟩ := construct_movable_boundingBox E
    (placedAt m.m_cBoxEntity c_position c_orientation) hmv
  obtain ⟨m', hmove, hh, hv⟩ := MoveTo_commit_extents E m c_position c_orientation hwf hgeo hm h0
  refine ⟨m', hmove, hh, hv, ?_, ?_⟩
  · intro hz
    apply boundingBox_ext _ _ hh
    rw [hv, hz, hcv]
    simp [placedAt]
  · intro hmc hp ho hy hf
    apply boundingBox_ext _ _
    · have hsz : (construct E (Scene.unitBox true 0)).m_cBoxEntity.m_cSize = ⟨1, 1, 1⟩ := by
        simp [construct, Scene.unitBox]
      rw [hh, hch]
      simp only [placedAt, ho, hy, hf, hp, hmc, hsz]
      simpa [horizontalExtent] using unitSquare_bounds
    · rw [hv, hmc]
      simp [verticalExtent, construct, Scene.unitBox, setHorizontalExtent, CVector3.SetX,
        CVector3.SetY, CVector3.SetZ]

/-- C3, at an instance: the unit box built at the origin of the empty space and moved to
(5, 5, 0) has the bounding box min (4.5, 4.5, 0), max (5.5, 5.5, 1). -/
theorem MoveTo_commit_boundingBox_witness :
    WellFormed (construct Scene.empty (Scene.unitBox true 0)) ∧
    ShapeOfBox (construct Scene.empty (Scene.unitBox true 0)) ∧
    IsMovable (construct Scene.empty (Scene.unitBox true 0)) = true ∧
    probeCount Scene.empty (construct Scene.empty (Scene.unitBox true 0)) ⟨5, 5, 0⟩
      CQuaternion.identity = 0 ∧
    ∃ m', MoveTo Scene.empty (construct Scene.empty (Scene.unitBox true 0)) ⟨5, 5, 0⟩
        CQuaternion.identity false = some (true, m') ∧
      m'.m_sBoundingBox = ⟨⟨9 / 2, 9 / 2, 0⟩, ⟨11 / 2, 11 / 2, 1⟩⟩ := by
  have hm : IsMovable (construct Scene.empty (Scene.unitBox true 0)) = true := by
    simp [IsMovable, construct, Scene.unitBox]
  have h0 : probeCount Scene.empty (construct Scene.empty (Scene.unitBox true 0)) ⟨5, 5, 0⟩
      CQuaternion.identity = 0 := by
    simp [probeCount, construct, Scene.unitBox, Scene.empty]
  obtain ⟨m', h1, _, _, _, h2⟩ :=
    MoveTo_commit_boundingBox Scene.empty (construct Scene.empty (Scene.unitBox true 0))
      ⟨5, 5, 0⟩ CQuaternion.identity (wellFormed_construct _ _)
      (shapeOfBox_construct _ _ rfl) hm h0
  exact ⟨wellFormed_construct _ _, shapeOfBox_construct _ _ rfl, hm, h0, m', h1,
    h2 rfl rfl rfl rfl rfl⟩

/-- C3, refuted as stated: the unit box built at height 0 and moved to (5, 5, 3) keeps the
heights 0 and 1 in its bounding box, while the constructor gives the same box placed at
(5, 5, 3) the heights 3 and 4. -/
theorem MoveTo_boundingBox_height_counterexample :
    ∃ m', MoveTo Scene.empty (construct Scene.empty (Scene.unitBox true 0)) ⟨5, 5, 3⟩
        CQuaternion.identity false = some (true, m') ∧
      verticalExtent m'.m_sBoundingBox = (0, 1) ∧
      verticalExtent (construct Scene.empty
        (placedAt (Scene.unitBox true 0) ⟨5, 5, 3⟩ CQuaternion.identity)).m_sBoundingBox
        = (3, 4) ∧
      m'.m_sBoundingBox ≠ (construct Scene.empty
        (placedAt (Scene.unitBox true 0) ⟨5, 5, 3⟩ CQuaternion.identity)).m_sBoundingBox := by
  have hm : IsMovable (construct Scene.empty (Scene.unitBox true 0)) = true := by
    simp [IsMovable, construct, Scene.unitBox]
  have h0 : probeCount Scene.empty (construct Scene.empty (Scene.unitBox true 0)) ⟨5, 5, 3⟩
      CQuaternion.identity = 0 := by
    simp [probeCount, construct, Scene.unitBox, Scene.empty]
  obtain ⟨m', h1, _, hv⟩ :=
    MoveTo_commit_extents Scene.empty (construct Scene.empty (Scene.unitBox true 0))
      ⟨5, 5, 3⟩ CQuaternion.identity (wellFormed_construct _ _)
      (shapeOfBox_construct _ _ rfl) hm h0
  have hv0 : verticalExtent (construct Scene.empty (Scene.unitBox true 0)).m_sBoundingBox
      = (0, 1) := by
    rw [(construct_movable_boundingBox _ _ rfl).2]
    simp [Scene.unitBox]
  have hv3 : verticalExtent (construct Scene.empty
      (placedAt (Scene.unitBox true 0) ⟨5, 5, 3⟩ CQuaternion.identity)).m_sBoundingBox
      = (3, 4) := by
    rw [(construct_movable_boundingBox _ _ rfl).2]
    simp [Scene.unitBox, placedAt]
    norm_num
  refine ⟨m', h1, hv.trans hv0, hv3, ?_⟩
  intro heq
  have hve := congrArg verticalExtent heq
  rw [hv.trans hv0, hv3] at hve
  simp at hve

/-! ### Reset and the collision probe -/

theorem Reset_movable (E : Externals) (m : CDynamics2DBoxModel) (body : cpBody)
    (g : CDynamics2DGrippable) (shape : cpShape)
    (hb : m.m_ptBody = some body) (hg : m.m_pcGrippable = some g)
    (hs : m.m_ptShape = some shape) (ha : shape.body = ShapeAnchor.modelBody) :
    Reset E m = some
      { m with
        m_ptBody := some
          { body with
            p := cpv m.m_cBoxEntity.m_cEmbodiedEntity.m_cInitPosition.x
                   m.m_cBoxEntity.m_cEmbodiedEntity.m_cInitPosition.y
            a := E.ToEulerAnglesZ m.m_cBoxEntity.m_cEmbodiedEntity.m_cInitOrientation
            rot := E.cpvforangle
              (E.ToEulerAnglesZ m.m_cBoxEntity.m_cEmbodiedEntity.m_cInitOrientation)
            v := cpvzero, w := 0, f := cpvzero, t := 0 }
        m_ptShape := some (cpShapeCacheBB shape
          (cpv m.m_cBoxEntity.m_cEmbodiedEntity.m_cInitPosition.x
            m.m_cBoxEntity.m_cEmbodiedEntity.m_cInitPosition.y)
          (E.cpvforangle
            (E.ToEulerAnglesZ m.m_cBoxEntity.m_cEmbodiedEntity.m_cInitOrientation)))
        m_sBoundingBox := setHorizontalExtent m.m_sBoundingBox (cpShapeCacheBB shape
          (cpv m.m_cBoxEntity.m_cEmbodiedEntity.m_cInitPosition.x
            m.m_cBoxEntity.m_cEmbodiedEntity.m_cInitPosition.y)
          (E.cpvforangle
            (E.ToEulerAnglesZ m.m_cBoxEntity.m_cEmbodiedEntity.m_cInitOrientation)))
        m_pcGrippable := some g.ReleaseAll } := by
  simp [Reset, hb, hg, hs, ha, anchorPlacement, CalculateBoundingBox, cpBodySetAngle,
    cpBodyResetForces]

theorem Reset_static (E : Externals) (m : CDynamics2DBoxModel) (hb : m.m_ptBody = none) :
    Reset E m = some m := by
  simp [Reset, hb]

theorem wellFormed_grippedBox : WellFormed Scene.grippedBox := by
  simp [WellFormed, MovableBranch, StaticBranch, IsMovable, Scene.grippedBox, construct,
    Scene.unitBox, CDynamics2DGrippable.create, cpSpaceAddShape, cpShapeUpdate, cpPolyShapeNew]

theorem isMovable_grippedBox : IsMovable Scene.grippedBox = true := by
  simp [IsMovable, Scene.grippedBox, construct, Scene.unitBox]

/-- C4: for a movable model, the attacher set of the Attachment Controller is empty after a
`MoveTo` that commits (`b_check_only` false, no collision found) and after every `Reset`; a
`MoveTo` that is check-only or rejected by a collision hands the Attachment Controller back as it
was, attachers and count of received `ReleaseAll` calls included. -/
theorem attachers_after_MoveTo_and_Reset (E : Externals) (m : CDynamics2DBoxModel)
    (c_position : CVector3) (c_orientation : CQuaternion) (b_check_only : Bool)
    (hwf : WellFormed m) (hm : IsMovable m = true) :
    (b_check_only = false → probeCount E m c_position c_orientation = 0 →
      ∃ m' g', MoveTo E m c_position c_orientation b_check_only = some (true, m') ∧
        m'.m_pcGrippable = some g' ∧ g'.m_listGrippers = []) ∧
    (∃ m' g', Reset E m = some m' ∧ m'.m_pcGrippable = some g' ∧ g'.m_listGrippers = []) ∧
    (b_check_only = true ∨ probeCount E m c_position c_orientation ≠ 0 →
      ∃ r m', MoveTo E m c_position c_orientation b_check_only = some (r, m') ∧
        m'.m_pcGrippable = m.m_pcGrippable) := by
  obtain ⟨body, g, shape, lin, ang, hb, hg, hs, ha, _, _⟩ := hwf.movable_parts hm
  refine ⟨?_, ?_, ?_⟩
  · intro hchk h0
    subst hchk
    exact ⟨_, g.ReleaseAll, MoveTo_commit E m _ _ body g shape hm hb hg hs h0, rfl, rfl⟩
  · exact ⟨_, g.ReleaseAll, Reset_movable E m body g shape hb hg hs ha, rfl, rfl⟩
  · intro h
    exact ⟨_, _, MoveTo_rollback E m _ _ _ body hm hb h, rfl⟩

/-- C4, at an instance: the box gripped by two attachers loses them when it is reset and
keeps them when a move is only checked. -/
theorem attachers_after_MoveTo_and_Reset_witness :
    WellFormed Scene.grippedBox ∧ IsMovable Scene.grippedBox = true ∧
    (∃ m' g', Reset Scene.empty Scene.grippedBox = some m' ∧ m'.m_pcGrippable = some g' ∧
      g'.m_listGrippers = []) ∧
    (∃ r m', MoveTo Scene.empty Scene.grippedBox ⟨1, 1, 0⟩ CQuaternion.identity true
        = some (r, m') ∧
      m'.m_pcGrippable = some { m_listGrippers := [7, 9], releaseAllCalls := 0 }) :=
  ⟨wellFormed_grippedBox, isMovable_grippedBox,
    (attachers_after_MoveTo_and_Reset Scene.empty Scene.grippedBox ⟨1, 1, 0⟩
      CQuaternion.identity true wellFormed_grippedBox isMovable_grippedBox).2.1,
    (attachers_after_MoveTo_and_Reset Scene.empty Scene.grippedBox ⟨1, 1, 0⟩
      CQuaternion.identity true wellFormed_grippedBox isMovable_grippedBox).2.2 (Or.inl rfl)⟩

/-- C6: for a movable model in any state `Reset` returns, and afterwards the position of the
body is the X and Y of the first position of the entity, its angle is the Z angle of the first
orientation, its linear and angular velocity, force and torque are zero, the cached bounds of the
shape are those refreshed at that placement and the horizontal extent of the bounding box equals
them; for an immovable model `Reset` returns the model as it was. -/
theorem Reset_restores_first_placement (E : Externals) (m : CDynamics2DBoxModel)
    (hwf : WellFormed m) :
    (IsMovable m = true →
      ∃ m' body' shape shape', m.m_ptShape = some shape ∧ Reset E m = some m' ∧
        m'.m_ptBody = some body' ∧
        body'.p = cpv m.m_cBoxEntity.m_cEmbodiedEntity.m_cInitPosition.x
                    m.m_cBoxEntity.m_cEmbodiedEntity.m_cInitPosition.y ∧
        body'.a = E.ToEulerAnglesZ m.m_cBoxEntity.m_cEmbodiedEntity.m_cInitOrientation ∧
        body'.rot = E.cpvforangle body'.a ∧
        body'.v = cpvzero ∧ body'.w = 0 ∧ body'.f = cpvzero ∧ body'.t = 0 ∧
        m'.m_ptShape = some shape' ∧
        shape' = cpShapeCacheBB shape body'.p body'.rot ∧
        shape'.bb = cpPolyBounds shape.verts body'.p body'.rot ∧
        horizontalExtent m'.m_sBoundingBox = shape'.bb ∧
        verticalExtent m'.m_sBoundingBox = verticalExtent m.m_sBoundingBox) ∧
    (IsMovable m = false → Reset E m = some m) := by
  constructor
  · intro hm
    obtain ⟨body, g, shape, lin, ang, hb, hg, hs, ha, _, _⟩ := hwf.movable_parts hm
    exact ⟨_, _, shape, _, hs, Reset_movable E m body g shape hb hg hs ha, rfl, rfl, rfl, rfl,
      rfl, rfl, rfl, rfl, rfl, rfl, rfl, horizontalExtent_setHorizontalExtent _ _,
      verticalExtent_setHorizontalExtent _ _⟩
  · intro hm
    obtain ⟨_, _, _, hb, _⟩ := hwf.static_parts hm
    exact Reset_static E m hb

/-- C6, at an instance: the box found at (5, 5) in motion is back at rest at the origin, where
it was built, after `Reset`. -/
theorem Reset_restores_first_placement_witness :
    WellFormed Scene.grippedBox ∧ IsMovable Scene.grippedBox = true ∧
    Scene.grippedBox.m_ptBody.map cpBody.p = some (cpv 5 5) ∧
    ∃ m' body', Reset Scene.empty Scene.grippedBox = some m' ∧ m'.m_ptBody = some body' ∧
      body'.p = cpv 0 0 ∧ body'.v = cpvzero ∧ body'.w = 0 := by
  obtain ⟨m', body', _, _, _, h1, h2, h3, _, _, h4, h5, _⟩ :=
    (Reset_restores_first_placement Scene.empty Scene.grippedBox wellFormed_grippedBox).1
      isMovable_grippedBox
  refine ⟨wellFormed_grippedBox, isMovable_grippedBox, ?_, m', body', h1, h2, ?_, h4, h5⟩
  · simp [Scene.grippedBox]
  · rw [h3]
    simp [Scene.grippedBox, construct, Scene.unitBox]

theorem anchorPlacement_wellFormed {m : CDynamics2DBoxModel} (hwf : WellFormed m) :
    ∃ shape pl, m.m_ptShape = some shape ∧ anchorPlacement m shape = some pl := by
  cases hm : IsMovable m with
  | true =>
    obtain ⟨body, g, shape, lin, ang, hb, _, hs, ha, _, _⟩ := hwf.movable_parts hm
    exact ⟨shape, (body.p, body.rot), hs, by simp [anchorPlacement, ha, hb]⟩
  | false =>
    obtain ⟨shape, hs, ha, _⟩ := hwf.static_parts hm
    exact ⟨shape, (groundPos, groundRot), hs, by simp [anchorPlacement, ha]⟩

/-- C7: `IsCollidingWithSomething` returns, its result is true if and only if the shape-overlap
query for the registered shape of the model reports a nonzero count, and the model (with its
body) after the call is the model before the call. -/
theorem IsCollidingWithSomething_result (E : Externals) (m : CDynamics2DBoxModel)
    (hwf : WellFormed m) :
    ∃ shape pl, m.m_ptShape = some shape ∧ anchorPlacement m shape = some pl ∧
      IsCollidingWithSomething E m =
        some (decide (E.cpSpaceShapeQuery shape pl.1 pl.2 ≠ 0), m) := by
  obtain ⟨shape, pl, hs, hp⟩ := anchorPlacement_wellFormed hwf
  refine ⟨shape, pl, hs, hp, ?_⟩
  simp [IsCollidingWithSomething, hs, hp, Nat.pos_iff_ne_zero]

/-- C7, at an instance: the unit box in the crowded space collides and is left as it was. -/
theorem IsCollidingWithSomething_result_witness :
    WellFormed (construct Scene.crowded (Scene.unitBox true 0)) ∧
    IsCollidingWithSomething Scene.crowded (construct Scene.crowded (Scene.unitBox true 0)) =
      some (true, construct Scene.crowded (Scene.unitBox true 0)) := by
  refine ⟨wellFormed_construct _ _, ?_⟩
  obtain ⟨shape, pl, _, _, h⟩ := IsCollidingWithSomething_result Scene.crowded
    (construct Scene.crowded (Scene.unitBox true 0)) (wellFormed_construct _ _)
  rw [h]
  simp [Scene.crowded]

/-! ### Ray intersection -/

theorem CheckIntersectionWithRay_eval (E : Externals) (m : CDynamics2DBoxModel) (f_t_on_ray : ℚ)
    (c_ray : CRay3) (shape : cpShape) (pl : cpVect × cpVect)
    (hs : m.m_ptShape = some shape) (hp : anchorPlacement m shape = some pl) :
    CheckIntersectionWithRay E m f_t_on_ray c_ray =
      some (if (E.cpShapeSegmentQuery shape pl.1 pl.2 (cpv c_ray.m_cStart.x c_ray.m_cStart.y)
                (cpv c_ray.m_cEnd.x c_ray.m_cEnd.y)).1 = true ∧
              m.m_cBoxEntity.m_cEmbodiedEntity.m_cPosition.z ≤
                (c_ray.GetPoint (E.cpShapeSegmentQuery shape pl.1 pl.2
                  (cpv c_ray.m_cStart.x c_ray.m_cStart.y)
                  (cpv c_ray.m_cEnd.x c_ray.m_cEnd.y)).2.t).z ∧
              (c_ray.GetPoint (E.cpShapeSegmentQuery shape pl.1 pl.2
                  (cpv c_ray.m_cStart.x c_ray.m_cStart.y)
                  (cpv c_ray.m_cEnd.x c_ray.m_cEnd.y)).2.t).z ≤
                m.m_cBoxEntity.m_cEmbodiedEntity.m_cPosition.z + m.m_cBoxEntity.m_cSize.z
            then (true, (E.cpShapeSegmentQuery shape pl.1 pl.2
                  (cpv c_ray.m_cStart.x c_ray.m_cStart.y)
                  (cpv c_ray.m_cEnd.x c_ray.m_cEnd.y)).2.t)
            else (false, f_t_on_ray)) := by
  simp only [CheckIntersectionWithRay, hs, hp, ge_iff_le]
  by_cases hq : (E.cpShapeSegmentQuery shape pl.1 pl.2 (cpv c_ray.m_cStart.x c_ray.m_cStart.y)
      (cpv c_ray.m_cEnd.x c_ray.m_cEnd.y)).1 = true
  · simp only [hq, if_true, true_and]
    split <;> rfl
  · simp [hq]

theorem verticalRay_height (t : ℚ) : (Scene.verticalRay.GetPoint t).z = -1 + t * 3 := by
  simp only [CRay3.GetPoint, Scene.verticalRay]
  norm_num

/-- C5 (as amended): `CheckIntersectionWithRay` returns, and its result is true exactly when the
segment query of the engine on the XY projection of the ray against the shape of the model
reports a hit at a parameter t and the Z coordinate of the point of the ray at t lies in the
closed interval from position.Z to position.Z + height; the ray parameter handed back is then
that t, and otherwise the result is false and the ray parameter of the caller is untouched.
For the ray from (0, 0, -1) to (0, 0, 2) and a reported hit at t, a box that spans Z in [0, 1]
is accepted exactly when 1/3 ≤ t ≤ 2/3, and a box that spans Z in [2, 3] is rejected exactly when
t < 1 or 4/3 < t. -/
theorem CheckIntersectionWithRay_result (E : Externals) (m : CDynamics2DBoxModel)
    (f_t_on_ray : ℚ) (c_ray : CRay3) (hwf : WellFormed m) :
    ∃ shape pl hit t r, m.m_ptShape = some shape ∧ anchorPlacement m shape = some pl ∧
      E.cpShapeSegmentQuery shape pl.1 pl.2 (cpv c_ray.m_cStart.x c_ray.m_cStart.y)
        (cpv c_ray.m_cEnd.x c_ray.m_cEnd.y) = (hit, ⟨t⟩) ∧
      CheckIntersectionWithRay E m f_t_on_ray c_ray = some r ∧
      (r.1 = true ↔ hit = true ∧
        m.m_cBoxEntity.m_cEmbodiedEntity.m_cPosition.z ≤ (c_ray.GetPoint t).z ∧
        (c_ray.GetPoint t).z ≤
          m.m_cBoxEntity.m_cEmbodiedEntity.m_cPosition.z + m.m_cBoxEntity.m_cSize.z) ∧
      (r.1 = true → r.2 = t) ∧ (r.1 = false → r.2 = f_t_on_ray) ∧
      (c_ray = Scene.verticalRay → hit = true → m.m_cBoxEntity.m_cSize.z = 1 →
        (m.m_cBoxEntity.m_cEmbodiedEntity.m_cPosition.z = 0 →
          (r.1 = true ↔ 1 / 3 ≤ t ∧ t ≤ 2 / 3)) ∧
        (m.m_cBoxEntity.m_cEmbodiedEntity.m_cPosition.z = 2 →
          (r.1 = false ↔ t < 1 ∨ 4 / 3 < t))) := by
  obtain ⟨shape, pl, hs, hp⟩ := anchorPlacement_wellFormed hwf
  have hev := CheckIntersectionWithRay_eval E m f_t_on_ray c_ray shape pl hs hp
  generalize hq : E.cpShapeSegmentQuery shape pl.1 pl.2 (cpv c_ray.m_cStart.x c_ray.m_cStart.y)
    (cpv c_ray.m_cEnd.x c_ray.m_cEnd.y) = q at hev
  obtain ⟨hit, ⟨t⟩⟩ := q
  simp only at hev
  refine ⟨shape, pl, hit, t, _, hs, hp, hq, hev, ?_⟩
  by_cases hc : hit = true ∧
      m.m_cBoxEntity.m_cEmbodiedEntity.m_cPosition.z ≤ (c_ray.GetPoint t).z ∧
      (c_ray.GetPoint t).z ≤
        m.m_cBoxEntity.m_cEmbodiedEntity.m_cPosition.z + m.m_cBoxEntity.m_cSize.z
  · rw [if_pos hc]
    refine ⟨by simpa using hc, fun _ => rfl, fun h => by simp at h, ?_⟩
    intro hr _ hz
    subst hr
    rw [verticalRay_height, hz] at hc
    obtain ⟨_, h1, h2⟩ := hc
    constructor
    · intro h0
      rw [h0] at h1 h2
      simp only [true_iff]
      constructor <;> linarith
    · intro h0
      rw [h0] at h1 h2
      simp only [Bool.true_eq_false, false_iff, not_or, not_lt]
      constructor <;> linarith
  · rw [if_neg hc]
    refine ⟨by simpa using hc, fun h => by simp at h, fun _ => rfl, ?_⟩
    intro hr hh hz
    subst hr
    rw [verticalRay_height, hz] at hc
    simp only [hh, true_and, not_and, not_le] at hc
    constructor
    · intro h0
      rw [h0] at hc
      simp only [Bool.false_eq_true, false_iff, not_and, not_le]
      intro h1
      have := hc (by linarith)
      linarith
    · intro h0
      rw [h0] at hc
      simp only [true_iff]
      by_cases h1 : t < 1
      · exact Or.inl h1
      · right
        have := hc (by linarith)
        linarith

/-- C5, at an instance: a hit reported at t = 1/2 on the vertical ray is accepted for the unit
box that spans Z in [0, 1]. -/
theorem CheckIntersectionWithRay_result_witness :
    WellFormed (construct (Scene.rayHit (1 / 2)) (Scene.unitBox true 0)) ∧
    ∃ r, CheckIntersectionWithRay (Scene.rayHit (1 / 2))
        (construct (Scene.rayHit (1 / 2)) (Scene.unitBox true 0)) 0 Scene.verticalRay = some r ∧
      r.1 = true ∧ r.2 = 1 / 2 := by
  refine ⟨wellFormed_construct _ _, ?_⟩
  obtain ⟨shape, pl, hit, t, r, _, _, hq, hr, _, h1, _, h2⟩ :=
    CheckIntersectionWithRay_result (Scene.rayHit (1 / 2))
      (construct (Scene.rayHit (1 / 2)) (Scene.unitBox true 0)) 0 Scene.verticalRay
      (wellFormed_construct _ _)
  simp only [Scene.rayHit, Prod.mk.injEq, cpSegmentQueryInfo.mk.injEq] at hq
  obtain ⟨hhit, ht⟩ := hq
  have hsz : (construct (Scene.rayHit (1 / 2)) (Scene.unitBox true 0)).m_cBoxEntity.m_cSize.z
      = 1 := by
    simp [construct, Scene.unitBox]
  have hz : (construct (Scene.rayHit (1 / 2))
      (Scene.unitBox true 0)).m_cBoxEntity.m_cEmbodiedEntity.m_cPosition.z = 0 := by
    simp [construct, Scene.unitBox]
  have hacc : r.1 = true := by
    rw [((h2 rfl hhit.symm hsz).1 hz)]
    rw [← ht]
    constructor <;> norm_num
  exact ⟨r, hr, hacc, (h1 hacc).trans ht.symm⟩

/-- C5, refuted as stated: on the ray from (0, 0, -1) to (0, 0, 2) a hit that the engine reports
at t = 1 is accepted for the box that spans Z in [2, 3], and a hit that the engine reports at
t = 0 is rejected for the box that spans Z in [0, 1]. -/
theorem CheckIntersectionWithRay_scenario_counterexample :
    CheckIntersectionWithRay (Scene.rayHit 1) (construct (Scene.rayHit 1) (Scene.unitBox true 2))
      0 Scene.verticalRay = some (true, 1) ∧
    CheckIntersectionWithRay (Scene.rayHit 0) (construct (Scene.rayHit 0) (Scene.unitBox true 0))
      5 Scene.verticalRay = some (false, 5) := by
  constructor
  · obtain ⟨shape, pl, hs, hp⟩ := anchorPlacement_wellFormed
      (wellFormed_construct (Scene.rayHit 1) (Scene.unitBox true 2))
    rw [CheckIntersectionWithRay_eval _ _ _ _ shape pl hs hp]
    simp only [Scene.rayHit, verticalRay_height]
    simp [construct, Scene.unitBox]
    norm_num
  · obtain ⟨shape, pl, hs, hp⟩ := anchorPlacement_wellFormed
      (wellFormed_construct (Scene.rayHit 0) (Scene.unitBox true 0))
    rw [CheckIntersectionWithRay_eval _ _ _ _ shape pl hs hp]
    simp only [Scene.rayHit, verticalRay_height]
    simp [construct, Scene.unitBox]

/-! ### Destruction -/

/-- C8 (as amended): the destructor of a movable model issues, in this order and each once: the
destruction of the Attachment Controller, the removal of the linear and of the angular friction
constraint, the freeing of the linear and of the angular friction constraint, the removal of the
shape, the removal of the body, the freeing of the shape, the freeing of the body.  The
destructor of an immovable model issues the removal of the static shape, the freeing of the
shape and the static reindex, and no call on a body, a constraint or a controller. -/
theorem destroy_calls (m : CDynamics2DBoxModel) (hwf : WellFormed m) :
    (IsMovable m = true →
      ∃ g lin ang shape body, m.m_pcGrippable = some g ∧ m.m_ptLinearFriction = some lin ∧
        m.m_ptAngularFriction = some ang ∧ m.m_ptShape = some shape ∧ m.m_ptBody = some body ∧
        destroy m = some
          [Call.deleteGrippable g,
           Call.cpSpaceRemoveConstraint lin,
           Call.cpSpaceRemoveConstraint ang,
           Call.cpConstraintFree lin,
           Call.cpConstraintFree ang,
           Call.cpSpaceRemoveShape shape,
           Call.cpSpaceRemoveBody body,
           Call.cpShapeFree shape,
           Call.cpBodyFree body]) ∧
    (IsMovable m = false →
      ∃ shape, m.m_ptShape = some shape ∧ shape.body = ShapeAnchor.groundBody ∧
        destroy m = some
          [Call.cpSpaceRemoveStaticShape shape, Call.cpShapeFree shape,
           Call.cpSpaceReindexStatic]) := by
  constructor
  · intro hm
    obtain ⟨body, g, shape, lin, ang, hb, hg, hs, _, hl, ha⟩ := hwf.movable_parts hm
    exact ⟨g, lin, ang, shape, body, hg, hl, ha, hs, hb, by simp [destroy, hb, hg, hs, hl, ha]⟩
  · intro hm
    obtain ⟨shape, hs, ha, hb, _⟩ := hwf.static_parts hm
    exact ⟨shape, hs, ha, by simp [destroy, hb, hs]⟩

/-- C8, at an instance: the teardown of the immovable unit box. -/
theorem destroy_calls_witness :
    WellFormed (construct Scene.empty (Scene.unitBox false 0)) ∧
    ∃ shape, destroy (construct Scene.empty (Scene.unitBox false 0)) = some
      [Call.cpSpaceRemoveStaticShape shape, Call.cpShapeFree shape, Call.cpSpaceReindexStatic] := by
  refine ⟨wellFormed_construct _ _, ?_⟩
  obtain ⟨shape, _, _, h⟩ :=
    (destroy_calls (construct Scene.empty (Scene.unitBox false 0)) (wellFormed_construct _ _)).2
      (by simp [IsMovable, construct, Scene.unitBox])
  exact ⟨shape, h⟩

/-- C8, refuted as stated: in the teardown of the movable unit box the calls do not come stage
after stage, because the body is removed from the space before the shape is freed. -/
theorem destroy_order_counterexample :
    ∃ calls before shape body rest,
      destroy (construct Scene.empty (Scene.unitBox true 0)) = some calls ∧
      calls = before ++ Call.cpSpaceRemoveBody body :: Call.cpShapeFree shape :: rest ∧
      ¬ StagedInOrder calls := by
  obtain ⟨body, g, shape, lin, ang, hb, hg, hs, _, hl, ha⟩ :=
    (wellFormed_construct Scene.empty (Scene.unitBox true 0)).movable_parts
      (by simp [IsMovable, construct, Scene.unitBox])
  refine ⟨[Call.deleteGrippable g, Call.cpSpaceRemoveConstraint lin,
      Call.cpSpaceRemoveConstraint ang, Call.cpConstraintFree lin, Call.cpConstraintFree ang,
      Call.cpSpaceRemoveShape shape, Call.cpSpaceRemoveBody body, Call.cpShapeFree shape,
      Call.cpBodyFree body],
    [Call.deleteGrippable g, Call.cpSpaceRemoveConstraint lin,
      Call.cpSpaceRemoveConstraint ang, Call.cpConstraintFree lin, Call.cpConstraintFree ang,
      Call.cpSpaceRemoveShape shape], shape, body, [Call.cpBodyFree body],
    by simp [destroy, hb, hg, hs, hl, ha], by simp, ?_⟩
  simp [StagedInOrder, stage]

/-! ### The invariant along a run -/

theorem UpdateEntityStatus_movable (E : Externals) (m : CDynamics2DBoxModel) (body : cpBody)
    (shape : cpShape) (hb : m.m_ptBody = some body) (hs : m.m_ptShape = some shape) :
    UpdateEntityStatus E m = some
      { m with
        m_sBoundingBox := setHorizontalExtent m.m_sBoundingBox shape
        m_cSpacePosition :=
          PositionPhysicsToSpace m.m_cBoxEntity.m_cEmbodiedEntity.m_cPosition body
        m_cSpaceOrientation := OrientationPhysicsToSpace E body
        m_cBoxEntity :=
          { m.m_cBoxEntity with
            m_cEmbodiedEntity :=
              { m.m_cBoxEntity.m_cEmbodiedEntity with
                m_cPosition :=
                  PositionPhysicsToSpace m.m_cBoxEntity.m_cEmbodiedEntity.m_cPosition body
                m_cOrientation := OrientationPhysicsToSpace E body }
            m_cComponents := E.UpdateComponents m.m_cBoxEntity.m_cComponents } } := by
  simp [UpdateEntityStatus, hb, hs, CalculateBoundingBox]

theorem UpdateEntityStatus_static (E : Externals) (m : CDynamics2DBoxModel)
    (hb : m.m_ptBody = none) :
    UpdateEntityStatus E m = some
      { m with
        m_cBoxEntity :=
          { m.m_cBoxEntity with
            m_cComponents := E.UpdateComponents m.m_cBoxEntity.m_cComponents } } := by
  simp [UpdateEntityStatus, hb]

theorem runInvariant_construct (E : Externals) (c_entity : CBoxEntity) :
    RunInvariant c_entity (construct E c_entity) := by
  refine ⟨wellFormed_construct E c_entity, ?_, ?_, ?_⟩
  · unfold IsMovable construct
    split <;> rfl
  · unfold construct
    split <;> rfl
  · intro hm
    have hm' : c_entity.m_cEmbodiedEntity.m_bMovable = true := by
      unfold IsMovable construct at hm
      split at hm
      · assumption
      · simpa using hm
    exact shapeOfBox_construct E c_entity hm'

theorem runInvariant_MoveTo (E : Externals) (c_entity : CBoxEntity)
    (m m' : CDynamics2DBoxModel) (c_position : CVector3) (c_orientation : CQuaternion)
    (b_check_only r : Bool) (hinv : RunInvariant c_entity m)
    (h : MoveTo E m c_position c_orientation b_check_only = some (r, m')) :
    RunInvariant c_entity m' := by
  obtain ⟨hwf, hfl, hsz, hgeo⟩ := hinv
  cases hm : IsMovable m with
  | false =>
    rw [MoveTo_immovable E m _ _ _ hm] at h
    simp only [Option.some.injEq, Prod.mk.injEq] at h
    rw [← h.2]
    exact ⟨hwf, hfl, hsz, hgeo⟩
  | true =>
    obtain ⟨body, g, shape, lin, ang, hb, hg, hs, ha, hl, hang⟩ := hwf.movable_parts hm
    have hverts : shape.verts = (testShape m).verts := by
      simpa [ShapeOfBox, hs] using hgeo hm
    have hmf : m.m_cBoxEntity.m_cEmbodiedEntity.m_bMovable = true := hm
    by_cases hc : b_check_only = true ∨ probeCount E m c_position c_orientation ≠ 0
    · rw [MoveTo_rollback E m _ _ _ body hm hb hc] at h
      simp only [Option.some.injEq, Prod.mk.injEq] at h
      rw [← h.2]
      refine ⟨?_, ?_, hsz, ?_⟩
      · simp [WellFormed, MovableBranch, IsMovable, hmf, hs, hl, hang, hg, ha]
      · rw [← hfl]
        rfl
      · intro _
        simpa [ShapeOfBox, hs, testShape] using hverts
    · push_neg at hc
      obtain ⟨hchk, h0⟩ := hc
      have hchk' : b_check_only = false := by simpa using hchk
      subst hchk'
      rw [MoveTo_commit E m _ _ body g shape hm hb hg hs h0] at h
      simp only [Option.some.injEq, Prod.mk.injEq] at h
      rw [← h.2]
      refine ⟨?_, ?_, hsz, ?_⟩
      · simp [WellFormed, MovableBranch, IsMovable, hmf, hl, hang, cpSpaceReindexShape,
          cpShapeUpdate, ha]
      · rw [← hfl]
        rfl
      · intro _
        simpa [ShapeOfBox, testShape, cpSpaceReindexShape, cpShapeUpdate] using hverts

theorem runInvariant_Reset (E : Externals) (c_entity : CBoxEntity)
    (m m' : CDynamics2DBoxModel) (hinv : RunInvariant c_entity m) (h : Reset E m = some m') :
    RunInvariant c_entity m' := by
  obtain ⟨hwf, hfl, hsz, hgeo⟩ := hinv
  cases hm : IsMovable m with
  | false =>
    obtain ⟨_, _, _, hb, _⟩ := hwf.static_parts hm
    rw [Reset_static E m hb] at h
    simp only [Option.some.injEq] at h
    rw [← h]
    exact ⟨hwf, hfl, hsz, hgeo⟩
  | true =>
    obtain ⟨body, g, shape, lin, ang, hb, hg, hs, ha, hl, hang⟩ := hwf.movable_parts hm
    have hverts : shape.verts = (testShape m).verts := by
      simpa [ShapeOfBox, hs] using hgeo hm
    have hmf : m.m_cBoxEntity.m_cEmbodiedEntity.m_bMovable = true := hm
    rw [Reset_movable E m body g shape hb hg hs ha] at h
    simp only [Option.some.injEq] at h
    rw [← h]
    refine ⟨?_, ?_, hsz, ?_⟩
    · simp [WellFormed, MovableBranch, IsMovable, hmf, hl, hang, cpShapeCacheBB,
        cpShapeUpdate, ha]
    · rw [← hfl]
      rfl
    · intro _
      simpa [ShapeOfBox, testShape, cpShapeCacheBB, cpShapeUpdate] using hverts

theorem runInvariant_UpdateEntityStatus (E : Externals) (c_entity : CBoxEntity)
    (m m' : CDynamics2DBoxModel) (hinv : RunInvariant c_entity m)
    (h : UpdateEntityStatus E m = some m') :
    RunInvariant c_entity m' := by
  obtain ⟨hwf, hfl, hsz, hgeo⟩ := hinv
  cases hm : IsMovable m with
  | false =>
    obtain ⟨shape, hs, ha, hb, hg, hl, hang⟩ := hwf.static_parts hm
    have hmf : m.m_cBoxEntity.m_cEmbodiedEntity.m_bMovable = false := hm
    rw [UpdateEntityStatus_static E m hb] at h
    simp only [Option.some.injEq] at h
    rw [← h]
    refine ⟨?_, ?_, hsz, ?_⟩
    · simp [WellFormed, StaticBranch, IsMovable, hmf, hs, hl, hang, hg, ha, hb]
    · rw [← hfl]
      rfl
    · intro hm2
      simp [IsMovable, hmf] at hm2
  | true =>
    obtain ⟨body, g, shape, lin, ang, hb, hg, hs, ha, hl, hang⟩ := hwf.movable_parts hm
    have hverts : shape.verts = (testShape m).verts := by
      simpa [ShapeOfBox, hs] using hgeo hm
    have hmf : m.m_cBoxEntity.m_cEmbodiedEntity.m_bMovable = true := hm
    rw [UpdateEntityStatus_movable E m body shape hb hs] at h
    simp only [Option.some.injEq] at h
    rw [← h]
    refine ⟨?_, ?_, hsz, ?_⟩
    · simp [WellFormed, MovableBranch, IsMovable, hmf, hs, hl, hang, hg, ha, hb]
    · rw [← hfl]
      rfl
    · intro _
      simpa [ShapeOfBox, hs, testShape] using hverts

theorem runInvariant_of_reachable (c_entity : CBoxEntity) (m : CDynamics2DBoxModel)
    (h : Reachable c_entity m) : RunInvariant c_entity m := by
  induction h with
  | constructed E => exact runInvariant_construct E c_entity
  | afterMoveTo E m m' pos o chk r _ hstep ih => exact runInvariant_MoveTo E _ m m' pos o chk r ih hstep
  | afterReset E m m' _ hstep ih => exact runInvariant_Reset E _ m m' ih hstep
  | afterUpdateEntityStatus E m m' _ hstep ih =>
    exact runInvariant_UpdateEntityStatus E _ m m' ih hstep
  | afterCheckIntersectionWithRay E m f ray r _ _ ih => exact ih
  | afterIsCollidingWithSomething E m m' r _ hstep ih =>
    obtain ⟨shape, pl, _, _, heq⟩ : ∃ shape pl, m.m_ptShape = some shape ∧
        anchorPlacement m shape = some pl ∧
        IsCollidingWithSomething E m =
          some (decide (E.cpSpaceShapeQuery shape pl.1 pl.2 > 0), m) := by
      obtain ⟨shape, pl, hs, hp⟩ := anchorPlacement_wellFormed ih.1
      exact ⟨shape, pl, hs, hp, by simp [IsCollidingWithSomething, hs, hp]⟩
    rw [heq] at hstep
    simp only [Option.some.injEq, Prod.mk.injEq] at hstep
    rw [← hstep.2]
    exact ih

/-- C10: in every state reachable from construction by calls of `MoveTo`, `Reset`,
`UpdateEntityStatus`, `CheckIntersectionWithRay` and `IsCollidingWithSomething`, the model has a
shape and is in exactly one of the two branches: the entity is movable and the model has a
dynamic body, both friction constraints and an Attachment Controller, or the entity is immovable
and the shape is bound to the ground body with no dynamic body, no friction constraint and no
Attachment Controller.  The movable flag is the one the entity was built with, the movable test
of `MoveTo` and the body-present test of `Reset`, `UpdateEntityStatus` and the destructor agree,
and each of the five methods and the destructor returns. -/
theorem reachable_branch_invariant (c_entity : CBoxEntity) (m : CDynamics2DBoxModel)
    (h : Reachable c_entity m) :
    m.m_ptShape.isSome = true ∧ (MovableBranch m ∨ StaticBranch m) ∧
    ¬ (MovableBranch m ∧ StaticBranch m) ∧
    IsMovable m = c_entity.m_cEmbodiedEntity.m_bMovable ∧
    (IsMovable m = true ↔ m.m_ptBody.isSome = true) ∧
    (∀ E c_position c_orientation b_check_only,
      (MoveTo E m c_position c_orientation b_check_only).isSome = true) ∧
    (∀ E, (Reset E m).isSome = true) ∧ (∀ E, (UpdateEntityStatus E m).isSome = true) ∧
    (∀ E f_t_on_ray c_ray, (CheckIntersectionWithRay E m f_t_on_ray c_ray).isSome = true) ∧
    (∀ E, (IsCollidingWithSomething E m).isSome = true) ∧ (destroy m).isSome = true := by
  obtain ⟨hwf, hfl, _, _⟩ := runInvariant_of_reachable c_entity m h
  refine ⟨hwf.1, hwf.2, ?_, hfl, ?_, ?_, ?_, ?_, ?_, ?_, ?_⟩
  · rintro ⟨hmb, hsb⟩
    have h1 := hmb.1
    rw [hsb.1] at h1
    cases h1
  · constructor
    · intro hm
      obtain ⟨body, _, _, _, _, hb, _⟩ := hwf.movable_parts hm
      simp [hb]
    · intro hb
      cases hm : IsMovable m with
      | true => rfl
      | false =>
        obtain ⟨_, _, _, hb', _⟩ := hwf.static_parts hm
        simp [hb'] at hb
  · intro E pos o chk
    cases hm : IsMovable m with
    | false => simp [MoveTo_immovable E m pos o chk hm]
    | true =>
      obtain ⟨body, g, shape, lin, ang, hb, hg, hs, _, _, _⟩ := hwf.movable_parts hm
      by_cases hc : chk = true ∨ probeCount E m pos o ≠ 0
      · simp [MoveTo_rollback E m pos o chk body hm hb hc]
      · push_neg at hc
        obtain ⟨hchk, h0⟩ := hc
        have hchk' : chk = false := by simpa using hchk
        subst hchk'
        simp [MoveTo_commit E m pos o body g shape hm hb hg hs h0]
  · intro E
    cases hm : IsMovable m with
    | false =>
      obtain ⟨_, _, _, hb, _⟩ := hwf.static_parts hm
      simp [Reset_static E m hb]
    | true =>
      obtain ⟨body, g, shape, lin, ang, hb, hg, hs, ha, _, _⟩ := hwf.movable_parts hm
      simp [Reset_movable E m body g shape hb hg hs ha]
  · intro E
    cases hm : IsMovable m with
    | false =>
      obtain ⟨_, _, _, hb, _⟩ := hwf.static_parts hm
      simp [UpdateEntityStatus_static E m hb]
    | true =>
      obtain ⟨body, g, shape, lin, ang, hb, hg, hs, ha, _, _⟩ := hwf.movable_parts hm
      simp [UpdateEntityStatus_movable E m body shape hb hs]
  · intro E f ray
    obtain ⟨shape, pl, hs, hp⟩ := anchorPlacement_wellFormed hwf
    simp [CheckIntersectionWithRay_eval E m f ray shape pl hs hp]
  · intro E
    obtain ⟨shape, pl, hs, hp⟩ := anchorPlacement_wellFormed hwf
    simp [IsCollidingWithSomething, hs, hp]
  · cases hm : IsMovable m with
    | false =>
      obtain ⟨shape, hs, _, hb, _⟩ := hwf.static_parts hm
      simp [destroy, hb, hs]
    | true =>
      obtain ⟨body, g, shape, lin, ang, hb, hg, hs, _, hl, ha⟩ := hwf.movable_parts hm
      simp [destroy, hb, hg, hs, hl, ha]

/-- C10, at an instance: the unit box after a committed move, a reset and a status update. -/
theorem reachable_branch_invariant_witness :
    ∃ m, Reachable (Scene.unitBox true 0) m ∧ m.m_ptShape.isSome = true ∧ MovableBranch m ∧
      ¬ StaticBranch m := by
  have h0 : Reachable (Scene.unitBox true 0) (construct Scene.empty (Scene.unitBox true 0)) :=
    Reachable.constructed Scene.empty
  have hex : ∀ m, Reachable (Scene.unitBox true 0) m →
      ∃ m', Reachable (Scene.unitBox true 0) m' ∧
        MoveTo Scene.empty m ⟨5, 5, 0⟩ CQuaternion.identity false = some (true, m') := by
    intro m hr
    have hinv := runInvariant_of_reachable _ m hr
    have hm : IsMovable m = true := hinv.2.1
    obtain ⟨body, g, shape, lin, ang, hb, hg, hs, _, _, _⟩ := hinv.1.movable_parts hm
    have hp : probeCount Scene.empty m ⟨5, 5, 0⟩ CQuaternion.identity = 0 := by
      simp [probeCount, hb, Scene.empty]
    exact ⟨_, Reachable.afterMoveTo Scene.empty m _ _ _ false true hr
      (MoveTo_commit Scene.empty m _ _ body g shape hm hb hg hs hp),
      MoveTo_commit Scene.empty m _ _ body g shape hm hb hg hs hp⟩
  obtain ⟨m1, hr1, _⟩ := hex _ h0
  obtain ⟨_, _, _, _, _, _, hreset, _⟩ := reachable_branch_invariant _ m1 hr1
  obtain ⟨m2, hm2⟩ := Option.isSome_iff_exists.mp (hreset Scene.empty)
  have hr2 := Reachable.afterReset Scene.empty m1 m2 hr1 hm2
  obtain ⟨hshape, hbr, hnot, hfl, _⟩ := reachable_branch_invariant _ m2 hr2
  have hmov : IsMovable m2 = true := hfl
  have hns : ¬ StaticBranch m2 := by
    intro hsb
    rw [hsb.1] at hmov
    cases hmov
  rcases hbr with hmb | hsb
  · exact ⟨m2, hr2, hshape, hmb, hns⟩
  · exact absurd hsb hns

end CDynamics2DBoxModel

/-! ## Properties of the controller -/

theorem TMap.find_assign_same {β : Type} (m : List (String × β)) (key : String) (value : β) :
    TMap.find (TMap.assign m key value) key = some value := by
  induction m with
  | nil => simp [TMap.assign, TMap.find]
  | cons e rest ih =>
    obtain ⟨k, v⟩ := e
    by_cases h1 : k = key
    · simp [TMap.assign, TMap.find, h1]
    · by_cases h2 : key < k
      · simp [TMap.assign, TMap.find, h1, h2]
      · simp [TMap.assign, TMap.find, h1, h2, ih]

theorem TMap.find_assign_other {β : Type} (m : List (String × β)) (key other : String)
    (value : β) (h : other ≠ key) :
    TMap.find (TMap.assign m key value) other = TMap.find m other := by
  have h' : ¬ key = other := fun e => h e.symm
  induction m with
  | nil => simp [TMap.assign, TMap.find, h']
  | cons e rest ih =>
    obtain ⟨k, v⟩ := e
    by_cases h1 : k = key
    · subst h1
      simp [TMap.assign, TMap.find, h']
    · by_cases h2 : key < k
      · simp [TMap.assign, TMap.find, h1, h2, h']
      · by_cases h3 : k = other
        · subst h3
          simp [TMap.assign, TMap.find, h1, h2]
        · simp [TMap.assign, TMap.find, h1, h2, h3, ih]

theorem actuator_messages_differ (str_type requested : String) :
    (⟨"Unknown actuator type " ++ str_type ++
        " requested in controller. Did you add it to the XML file?"⟩ : CARGoSException) ≠
      ⟨"Actuator type " ++ str_type ++ " cannot be cast to type " ++ requested⟩ := by
  intro h
  have h1 := congrArg CARGoSException.what h
  have h2 := congrArg String.data h1
  simp only [String.data_append] at h2
  have h3 := congrArg List.head? h2
  simp at h3

theorem sensor_messages_differ (str_type requested : String) :
    (⟨"Unknown sensor type " ++ str_type ++
        " requested in controller. Did you add it to the XML file?"⟩ : CARGoSException) ≠
      ⟨"Sensor type " ++ str_type ++ " cannot be cast to type " ++ requested⟩ := by
  intro h
  have h1 := congrArg CARGoSException.what h
  have h2 := congrArg String.data h1
  simp only [String.data_append] at h2
  have h3 := congrArg List.head? h2
  simp at h3

namespace CCI_Controller

/-- C9: `GetActuator` returns the handle stored under the label when the label is in the map and
the handle casts to the requested class, throws the "Unknown actuator type" exception when the
label is not in the map, and throws the "cannot be cast" exception when the label is in the map
and the cast of the handle fails; `GetSensor` does the same on the sensor map.  After
`AddActuator(label, h)` a lookup of the label is decided by `h`, whatever was registered
before, and lookups of other labels and of sensors give what they gave before; `AddSensor` does
the same on the sensor map.  The two exceptions of a lookup never carry the same text. -/
theorem GetActuator_GetSensor_result (H : ClassHierarchy) (c : CCI_Controller)
    (requested str_type : String) :
    (∀ p o, TMap.find c.m_mapActuators str_type = some p →
      dynamic_cast H CCI_Actuator.dynamicType requested p = some o →
      p = some o ∧ GetActuator H c requested str_type = Except.ok o) ∧
    (TMap.find c.m_mapActuators str_type = none →
      GetActuator H c requested str_type = Except.error
        ⟨"Unknown actuator type " ++ str_type ++
          " requested in controller. Did you add it to the XML file?"⟩) ∧
    (∀ p, TMap.find c.m_mapActuators str_type = some p →
      dynamic_cast H CCI_Actuator.dynamicType requested p = none →
      GetActuator H c requested str_type = Except.error
        ⟨"Actuator type " ++ str_type ++ " cannot be cast to type " ++ requested⟩) ∧
    (∀ p o, TMap.find c.m_mapSensors str_type = some p →
      dynamic_cast H CCI_Sensor.dynamicType requested p = some o →
      p = some o ∧ GetSensor H c requested str_type = Except.ok o) ∧
    (TMap.find c.m_mapSensors str_type = none →
      GetSensor H c requested str_type = Except.error
        ⟨"Unknown sensor type " ++ str_type ++
          " requested in controller. Did you add it to the XML file?"⟩) ∧
    (∀ p, TMap.find c.m_mapSensors str_type = some p →
      dynamic_cast H CCI_Sensor.dynamicType requested p = none →
      GetSensor H c requested str_type = Except.error
        ⟨"Sensor type " ++ str_type ++ " cannot be cast to type " ++ requested⟩) ∧
    (∀ h, TMap.find (c.AddActuator str_type h).m_mapActuators str_type = some h) ∧
    (∀ h, GetActuator H (c.AddActuator str_type h) requested str_type =
      match dynamic_cast H CCI_Actuator.dynamicType requested h with
      | some o => Except.ok o
      | none => Except.error
          ⟨"Actuator type " ++ str_type ++ " cannot be cast to type " ++ requested⟩) ∧
    (∀ h other, other ≠ str_type →
      GetActuator H (c.AddActuator str_type h) requested other =
        GetActuator H c requested other) ∧
    (∀ h other, GetSensor H (c.AddActuator str_type h) requested other =
      GetSensor H c requested other) ∧
    (∀ h, GetSensor H (c.AddSensor str_type h) requested str_type =
      match dynamic_cast H CCI_Sensor.dynamicType requested h with
      | some o => Except.ok o
      | none => Except.error
          ⟨"Sensor type " ++ str_type ++ " cannot be cast to type " ++ requested⟩) ∧
    (∀ h other, other ≠ str_type →
      GetSensor H (c.AddSensor str_type h) requested other = GetSensor H c requested other) ∧
    (∀ h other, GetActuator H (c.AddSensor str_type h) requested other =
      GetActuator H c requested other) ∧
    (⟨"Unknown actuator type " ++ str_type ++
        " requested in controller. Did you add it to the XML file?"⟩ : CARGoSException) ≠
      ⟨"Actuator type " ++ str_type ++ " cannot be cast to type " ++ requested⟩ ∧
    (⟨"Unknown sensor type " ++ str_type ++
        " requested in controller. Did you add it to the XML file?"⟩ : CARGoSException) ≠
      ⟨"Sensor type " ++ str_type ++ " cannot be cast to type " ++ requested⟩ := by
  refine ⟨?_, ?_, ?_, ?_, ?_, ?_, ?_, ?_, ?_, ?_, ?_, ?_, ?_,
    actuator_messages_differ str_type requested, sensor_messages_differ str_type requested⟩
  · intro p o hf hc
    have hp : p = some o := by
      cases p with
      | none => simp [dynamic_cast] at hc
      | some a =>
        simp only [dynamic_cast] at hc
        split at hc
        · exact hc
        · cases hc
    exact ⟨hp, by simp [GetActuator, hf, hc]⟩
  · intro hf
    simp [GetActuator, hf]
  · intro p hf hc
    simp [GetActuator, hf, hc]
  · intro p o hf hc
    have hp : p = some o := by
      cases p with
      | none => simp [dynamic_cast] at hc
      | some a =>
        simp only [dynamic_cast] at hc
        split at hc
        · exact hc
        · cases hc
    exact ⟨hp, by simp [GetSensor, hf, hc]⟩
  · intro hf
    simp [GetSensor, hf]
  · intro p hf hc
    simp [GetSensor, hf, hc]
  · intro h
    exact TMap.find_assign_same _ _ _
  · intro h
    simp only [GetActuator, AddActuator, TMap.find_assign_same]
  · intro h other hne
    simp only [GetActuator, AddActuator, TMap.find_assign_other _ _ _ _ hne]
  · intro h other
    rfl
  · intro h
    simp only [GetSensor, AddSensor, TMap.find_assign_same]
  · intro h other hne
    simp only [GetSensor, AddSensor, TMap.find_assign_other _ _ _ _ hne]
  · intro h other
    rfl

/-- C9, at an instance: the wheels actuator is found as an actuator, is refused as a sensor
class, an unregistered label is unknown, and a second registration replaces the first. -/
theorem GetActuator_GetSensor_result_witness :
    GetActuator Scene.hierarchy Scene.controller "CCI_Actuator" "wheels" =
      Except.ok ⟨"CWheelsActuator", 1⟩ ∧
    GetActuator Scene.hierarchy Scene.controller "CLedsActuator" "wheels" =
      Except.error ⟨"Actuator type wheels cannot be cast to type CLedsActuator"⟩ ∧
    GetActuator Scene.hierarchy Scene.controller "CCI_Actuator" "leds" =
      Except.error ⟨"Unknown actuator type leds requested in controller. " ++
        "Did you add it to the XML file?"⟩ ∧
    GetActuator Scene.hierarchy
      (Scene.controller.AddActuator "wheels" (some ⟨"CCI_Actuator", 5⟩)) "CCI_Actuator" "wheels" =
      Except.ok ⟨"CCI_Actuator", 5⟩ := by
  have hfind : TMap.find Scene.controller.m_mapActuators "wheels" =
      some (some ⟨"CWheelsActuator", 1⟩) := by
    simp [Scene.controller, TMap.find]
  have hnone : TMap.find Scene.controller.m_mapActuators "leds" = none := by
    simp [Scene.controller, TMap.find]
  have hcast : dynamic_cast Scene.hierarchy CCI_Actuator.dynamicType "CCI_Actuator"
      (some ⟨"CWheelsActuator", 1⟩) = some ⟨"CWheelsActuator", 1⟩ := by
    simp [dynamic_cast, Scene.hierarchy]
  have hbad : dynamic_cast Scene.hierarchy CCI_Actuator.dynamicType "CLedsActuator"
      (some ⟨"CWheelsActuator", 1⟩) = none := by
    simp [dynamic_cast, Scene.hierarchy]
  have hnew : dynamic_cast Scene.hierarchy CCI_Actuator.dynamicType "CCI_Actuator"
      (some ⟨"CCI_Actuator", 5⟩) = some ⟨"CCI_Actuator", 5⟩ := by
    simp [dynamic_cast, Scene.hierarchy]
  refine ⟨?_, ?_, ?_, ?_⟩
  · exact ((GetActuator_GetSensor_result Scene.hierarchy Scene.controller "CCI_Actuator"
      "wheels").1 _ _ hfind hcast).2
  · exact (GetActuator_GetSensor_result Scene.hierarchy Scene.controller "CLedsActuator"
      "wheels").2.2.1 _ hfind hbad
  · exact (GetActuator_GetSensor_result Scene.hierarchy Scene.controller "CCI_Actuator"
      "leds").2.1 hnone
  · rw [(GetActuator_GetSensor_result Scene.hierarchy Scene.controller "CCI_Actuator"
      "wheels").2.2.2.2.2.2.2.1 (some ⟨"CCI_Actuator", 5⟩), hnew]

end CCI_Controller

end Argos
